import Mathlib

/-
  Verification development for the LumoraPrompter request-classification and
  instruction-assembly pipeline.

  The TypeScript sources are shallowly embedded: JS strings are modelled through
  `String` / `List Char`, JS numbers by `Nat` / `Int` (exact rationals `ℚ` where
  the source multiplies by decimal weights), and the one use of `Math.random()`
  (selection among three fixed false-restriction strings) is made explicit as a
  `Nat` parameter threaded through the selector.  `Array.prototype.sort` with a
  numeric comparator is modelled as a stable descending insertion sort, matching
  the ES2019 stable-sort guarantee.
-/

/-! ## JS string primitives -/

/-- Lowercase a list of characters (models `String.prototype.toLowerCase` on the
ASCII range used by the heuristics). -/
def lowerL (l : List Char) : List Char := l.map Char.toLower

/-- Lowercase a string, models `s.toLowerCase()`. -/
def lowerStr (s : String) : String := String.mk (lowerL s.data)

/-- Models `hay.includes(needle)` for JS strings. -/
def containsSub (hay needle : List Char) : Bool :=
  match hay with
  | [] => needle.isEmpty
  | _ :: t => needle.isPrefixOf hay || containsSub t needle

/-- True when a run of characters produced by `List.splitBy` starts with
whitespace. -/
def runIsWs (r : List Char) : Bool :=
  match r with
  | [] => false
  | c :: _ => c.isWhitespace

/-- Models `s.split(/\s+/)` for JS strings: pieces are the maximal
non-whitespace segments, with an empty leading (resp. trailing) piece when the
string starts (resp. ends) with whitespace, and `[""]` for the empty string. -/
def jsSplitWS (l : List Char) : List (List Char) :=
  match l.splitBy (fun a b => a.isWhitespace == b.isWhitespace) with
  | [] => [[]]
  | r0 :: rs =>
      (if runIsWs r0 then [([] : List Char)] else [])
        ++ ((r0 :: rs).filter (fun r => !runIsWs r))
        ++ (if runIsWs ((r0 :: rs).getLastD []) then [([] : List Char)] else [])

/-- Characters matched by the regex class `\w`. -/
def isWordChar (c : Char) : Bool := c.isAlpha || c.isDigit || c = '_'

/-- Maximal `\w`-runs of a character list; `\bword\b` matches iff `word` is one
of these runs. -/
def wordRuns (l : List Char) : List (List Char) :=
  (l.splitBy (fun a b => isWordChar a == isWordChar b)).filter
    (fun r => match r with | [] => false | c :: _ => isWordChar c)

/-- Models the JS idiom `s || d` for strings (empty string is falsy). -/
def jsStrOr (s : Option String) (d : String) : String :=
  match s with
  | none => d
  | some s => if s.isEmpty then d else s

/-! ## Data model (src/src/types.ts) -/

inductive TaskType
  | criativa | tecnica | analitica | educacional | debate | documentacao | codigo | mista
  deriving DecidableEq

inductive ComplexityLevel
  | basico | intermediario | avancado | expert
  deriving DecidableEq

inductive PromptingTechnique
  | role_prompting | emotion_prompting | iq_attribution | fake_past_consistency
  | fake_audience | obviously | false_restriction | version_2 | someone_disagrees
  | bet_100_dollars | simtom | re2 | rar
  deriving DecidableEq

structure TechniqueDefinition where
  name : PromptingTechnique
  displayName : String
  description : String
  whenToUse : List String
  exampleText : String  -- the source field is named `example` (a Lean keyword)
  isMandatory : Bool
  deriving DecidableEq

structure AnalysisResult where
  taskType : TaskType
  mainObjective : String
  complexityLevel : ComplexityLevel
  implicitContext : List String
  targetAudience : String
  suggestedIQ : Nat
  keywords : List String
  detectedDomain : Option String := none
  intentAnalysis : Option String := none
  deriving DecidableEq

structure TechniqueApplication where
  technique : PromptingTechnique
  reason : String
  implementation : String
  deriving DecidableEq

structure OptimizationRequest where
  user_request : String
  context : Option String := none
  deriving DecidableEq

/-! ## Technique registry (src/src/techniques.ts) -/

/-- The static `TECHNIQUES` table, keyed by technique (a total function models
the `Record<PromptingTechnique, TechniqueDefinition>`). -/
def TECHNIQUES : PromptingTechnique → TechniqueDefinition
  | .role_prompting =>
      { name := .role_prompting, displayName := "Role Prompting",
        description := "Atribui um papel específico e relevante à IA",
        whenToUse := ["sempre", "qualquer tarefa"],
        exampleText := "Você é um desenvolvedor senior especializado em...",
        isMandatory := true }
  | .emotion_prompting =>
      { name := .emotion_prompting, displayName := "Emotion Prompting",
        description := "Adiciona peso emocional para aumentar a atenção",
        whenToUse := ["tarefas críticas", "alta precisão necessária"],
        exampleText := "Isso é crucial para o projeto e precisa ser perfeito",
        isMandatory := true }
  | .iq_attribution =>
      { name := .iq_attribution, displayName := "Atribuir QI/Expertise",
        description := "Define o nível de sofisticação esperado",
        whenToUse := ["sempre", "definir nível de expertise"],
        exampleText := "com QI 160 e profundo conhecimento em...",
        isMandatory := true }
  | .fake_past_consistency =>
      { name := .fake_past_consistency, displayName := "Fingir Consistência Passada",
        description := "Cria contexto de conversa prévia",
        whenToUse := ["tópicos técnicos complexos", "continuidade contextual"],
        exampleText := "Você me explicou anteriormente sobre renderização 3D...",
        isMandatory := false }
  | .fake_audience =>
      { name := .fake_audience, displayName := "Finja uma Plateia",
        description := "Define uma audiência específica para adaptar a explicação",
        whenToUse := ["explicações didáticas", "apresentações", "ensino"],
        exampleText := "Explique como se apresentasse para estudantes de graduação",
        isMandatory := false }
  | .obviously =>
      { name := .obviously, displayName := "Obviamente...",
        description := "Usa afirmação controversa para gerar análise crítica",
        whenToUse := ["debates", "comparações", "análise crítica"],
        exampleText := "Obviamente React é melhor que Vue, certo?",
        isMandatory := false }
  | .false_restriction =>
      { name := .false_restriction, displayName := "Restrição Falsa",
        description := "Impõe limitações criativas para forçar analogias",
        whenToUse := ["criatividade", "explicações analogias", "inovação"],
        exampleText := "Explique usando apenas analogias de culinária",
        isMandatory := false }
  | .version_2 =>
      { name := .version_2, displayName := "Versão 2.0",
        description := "Solicita iteração melhorada de algo existente",
        whenToUse := ["iteração", "melhoria", "inovação"],
        exampleText := "Crie uma Versão 2.0 com abordagem completamente nova",
        isMandatory := false }
  | .someone_disagrees =>
      { name := .someone_disagrees, displayName := "Alguém Discorda",
        description := "Apresenta visão oposta para análise profunda",
        whenToUse := ["análise crítica", "validação de ideias", "debate"],
        exampleText := "Meu colega diz que microserviços são overhead desnecessário",
        isMandatory := false }
  | .bet_100_dollars =>
      { name := .bet_100_dollars, displayName := "Apostar 100 Dólares",
        description := "Cria aposta para validação rigorosa",
        whenToUse := ["validação técnica", "code review", "precisão extrema"],
        exampleText := "Vamos apostar $100 que esse código está bug-free",
        isMandatory := false }
  | .simtom =>
      { name := .simtom, displayName := "SimToM (Theory of Mind)",
        description := "Adota múltiplas perspectivas de diferentes entidades",
        whenToUse := ["análise multiperspectiva", "stakeholders", "UX"],
        exampleText := "Analise da perspectiva do usuário, do desenvolvedor e do negócio",
        isMandatory := false }
  | .re2 =>
      { name := .re2, displayName := "RE2 (Leia Duas Vezes)",
        description := "Força releitura e análise profunda",
        whenToUse := ["análise complexa", "compreensão profunda"],
        exampleText := "Leia o requisito duas vezes antes de responder",
        isMandatory := false }
  | .rar =>
      { name := .rar, displayName := "RaR (Rephrase and Respond)",
        description := "Reformula a pergunta antes de responder",
        whenToUse := ["clarificação", "ambiguidade", "confirmação"],
        exampleText := "Primeiro reformule o que entendeu, depois responda",
        isMandatory := false }

/-- Declaration order of `Object.values(TECHNIQUES)`. -/
def techniqueCatalog : List PromptingTechnique :=
  [.role_prompting, .emotion_prompting, .iq_attribution, .fake_past_consistency,
   .fake_audience, .obviously, .false_restriction, .version_2, .someone_disagrees,
   .bet_100_dollars, .simtom, .re2, .rar]

def MANDATORY_TECHNIQUES : List PromptingTechnique :=
  techniqueCatalog.filter (fun t => (TECHNIQUES t).isMandatory)

def SITUATIONAL_TECHNIQUES : List PromptingTechnique :=
  techniqueCatalog.filter (fun t => !(TECHNIQUES t).isMandatory)

/-! ## Stable descending sort (models `Array.prototype.sort` with a numeric
`(a, b) => keyB - keyA` comparator; ES2019 sort is stable) -/

def insertDescBy {α : Type} (key : α → Nat) (x : α) : List α → List α
  | [] => [x]
  | y :: ys => if key x < key y then y :: insertDescBy key x ys else x :: y :: ys

def sortDescBy {α : Type} (key : α → Nat) : List α → List α
  | [] => []
  | x :: xs => insertDescBy key x (sortDescBy key xs)

/-! ## Request analyzer (RequestAnalyzer, src/unnamed/part_001) -/

namespace RequestAnalyzer

/-- Keyword patterns for task identification, in declaration order. -/
def patterns : List (TaskType × List String) :=
  [(.codigo, ["código", "programa", "função", "class", "implementar", "debug",
              "refactor", "bug", "script", "api"]),
   (.tecnica, ["como fazer", "técnica", "método", "processo", "algoritmo",
               "otimizar", "configurar", "setup"]),
   (.criativa, ["criar", "design", "arte", "criativo", "inovador", "imaginar",
                "inventar", "ascii art", "logo"]),
   (.analitica, ["analisar", "comparar", "avaliar", "qual melhor", "diferença",
                 "prós e contras", "vs"]),
   (.educacional, ["explicar", "ensinar", "como funciona", "o que é", "tutorial",
                   "aprender", "entender"]),
   (.debate, ["discutir", "argumentar", "opinião", "debate", "controverso",
              "melhor", "pior"]),
   (.documentacao, ["documentar", "documentação", "readme", "comentar",
                    "especificar", "descrever"]),
   (.mista, [])]

/-- The `scores` object of `identifyTaskType`: one entry per task type whose
keyword-match count is positive, in declaration order. -/
def taskTypeScores (request : String) : List (TaskType × Nat) :=
  let lowerRequest := lowerL request.data
  patterns.filterMap (fun p =>
    let score := (p.2.filter (fun kw => containsSub lowerRequest kw.data)).length
    if 0 < score then some (p.1, score) else none)

/-- `RequestAnalyzer.identifyTaskType`. -/
def identifyTaskType (request : String) : TaskType :=
  let scores := taskTypeScores request
  if 2 < scores.length then .mista
  else
    match sortDescBy (fun p => p.2) scores with
    | [] => .tecnica
    | top :: _ => top.1

def expertIndicators : List String :=
  ["avançado", "expert", "complexo", "otimizado", "performance", "arquitetura",
   "escalável", "3d", "algoritmo"]

def intermediateIndicators : List String :=
  ["melhorar", "refatorar", "estruturar", "organizar", "integrar", "api"]

def basicIndicators : List String :=
  ["simples", "básico", "iniciante", "exemplo", "hello world", "tutorial"]

def expertScoreOf (request : String) : Nat :=
  (expertIndicators.filter (fun w => containsSub (lowerL request.data) w.data)).length

def intermediateScoreOf (request : String) : Nat :=
  (intermediateIndicators.filter (fun w => containsSub (lowerL request.data) w.data)).length

def basicScoreOf (request : String) : Nat :=
  (basicIndicators.filter (fun w => containsSub (lowerL request.data) w.data)).length

/-- `request.split(/\s+/).length`. -/
def wordCountOf (request : String) : Nat := (jsSplitWS request.data).length

def codeTermWords : List String :=
  ["class", "function", "async", "await", "api", "database", "server"]

/-- The regex test `/\b(class|function|async|await|api|database|server)\b/i`. -/
def hasCodeTermsOf (request : String) : Bool :=
  (wordRuns (lowerL request.data)).any (fun r => codeTermWords.any (fun w => r == w.data))

/-- `RequestAnalyzer.assessComplexity`. -/
def assessComplexity (request : String) : ComplexityLevel :=
  if 0 < expertScoreOf request ∨ (30 < wordCountOf request ∧ hasCodeTermsOf request = true) then
    .expert
  else if 0 < intermediateScoreOf request ∨ 20 < wordCountOf request then
    .avancado
  else if 0 < basicScoreOf request then
    .basico
  else
    .intermediario

def stopWords : List String :=
  ["para", "isso", "esse", "este", "como", "fazer", "criar", "você", "pode",
   "deve", "quero", "preciso"]

/-- `RequestAnalyzer.extractKeywords`. -/
def extractKeywords (request : String) : List String :=
  let words := ((jsSplitWS (lowerL request.data)).map String.mk).filter
    (fun w => 4 < w.length && !(stopWords.any (fun s => w == s)))
  (words.eraseDups).take 5

/-- `RequestAnalyzer.identifyMainObjective` (uses only the first-reading task
type and keywords). -/
def identifyMainObjective (taskType : TaskType) (keywords : List String) : String :=
  match taskType with
  | .codigo => "Implementar código para " ++ String.intercalate " e " (keywords.take 2)
  | .tecnica => "Explicar técnica/método de " ++ jsStrOr keywords.head? "processo"
  | .criativa => "Criar solução criativa para " ++ jsStrOr keywords.head? "projeto"
  | .analitica => "Analisar e comparar " ++ String.intercalate " vs " (keywords.take 2)
  | .educacional => "Ensinar conceito de " ++ jsStrOr keywords.head? "tópico"
  | .debate => "Debater argumentos sobre " ++ jsStrOr keywords.head? "tema"
  | .documentacao => "Documentar " ++ jsStrOr keywords.head? "projeto"
  | .mista => "Realizar tarefa complexa envolvendo " ++ String.intercalate " e " (keywords.take 2)

/-- `RequestAnalyzer.extractImplicitContext` (uses the raw request and the
first-reading complexity). -/
def extractImplicitContext (request : String) (complexityLevel : ComplexityLevel) :
    List String :=
  let low := lowerL request.data
  (if containsSub low "node".data || containsSub low "javascript".data ||
      containsSub low "npm".data then ["Ambiente Node.js/JavaScript"] else [])
  ++ (if containsSub low "python".data then ["Ambiente Python"] else [])
  ++ (if containsSub low "react".data || containsSub low "vue".data ||
         containsSub low "angular".data then ["Frontend framework"] else [])
  ++ (if containsSub low "produção".data || containsSub low "production".data then
        ["Código para produção - alta qualidade necessária"] else [])
  ++ (if containsSub low "aprender".data || containsSub low "estudar".data then
        ["Finalidade educacional"] else [])
  ++ (if complexityLevel = .expert then
        ["Necessita abordagem profissional e otimizada"] else [])

/-- `RequestAnalyzer.identifyAudience`. -/
def identifyAudience (request : String) (complexityLevel : ComplexityLevel) : String :=
  let low := lowerL request.data
  if containsSub low "cliente".data || containsSub low "apresentar".data then
    "Cliente/Stakeholder"
  else if containsSub low "time".data || containsSub low "equipe".data then
    "Equipe de desenvolvimento"
  else if containsSub low "aprender".data || containsSub low "estudar".data then
    "Estudante/Aprendiz"
  else if complexityLevel = .expert then
    "Desenvolvedor experiente"
  else
    "Desenvolvedor geral"

/-- `RequestAnalyzer.suggestIQLevel`. -/
def suggestIQLevel : ComplexityLevel → Nat
  | .basico => 130
  | .intermediario => 140
  | .avancado => 150
  | .expert => 160

/-- `RequestAnalyzer.analyze` (RE2: first reading extracts task type,
complexity and keywords; second reading derives objective, implicit context,
audience and IQ from the first reading's outputs).  The optional context only
feeds the unused `hasContext` flag in the source. -/
def analyze (userRequest : String) (_context : Option String) : AnalysisResult :=
  let taskType := identifyTaskType userRequest
  let complexityLevel := assessComplexity userRequest
  let keywords := extractKeywords userRequest
  { taskType := taskType
    mainObjective := identifyMainObjective taskType keywords
    complexityLevel := complexityLevel
    implicitContext := extractImplicitContext userRequest complexityLevel
    targetAudience := identifyAudience userRequest complexityLevel
    suggestedIQ := suggestIQLevel complexityLevel
    keywords := keywords }

end RequestAnalyzer

/-! ## Technique selector (TechniqueSelector, src/src/few-shot-examples.ts,
second document) -/

namespace TechniqueSelector

/-- `TechniqueSelector.generateRole`. -/
def generateRole (analysis : AnalysisResult) : String :=
  let role :=
    match analysis.taskType with
    | .codigo => "desenvolvedor senior especializado"
    | .tecnica => "especialista técnico"
    | .criativa => "designer criativo e inovador"
    | .analitica => "analista especializado"
    | .educacional => "educador experiente"
    | .debate => "debatedor e pensador crítico"
    | .documentacao => "technical writer especializado"
    | .mista => "profissional multidisciplinar"
  let domain := jsStrOr analysis.keywords.head? "sua área"
  "Você é um " ++ role ++ " em " ++ domain

/-- Rendering of a `ComplexityLevel` value interpolated into a template
string. -/
def complexityStr : ComplexityLevel → String
  | .basico => "basico"
  | .intermediario => "intermediario"
  | .avancado => "avancado"
  | .expert => "expert"

/-- `TechniqueSelector.shouldUseEmotionPrompting`. -/
def shouldUseEmotionPrompting (analysis : AnalysisResult) : Bool :=
  analysis.complexityLevel ≠ .basico ∧
    (analysis.taskType = .codigo ∨ analysis.taskType = .tecnica ∨
      analysis.implicitContext.any (fun c => containsSub c.data "produção".data))

/-- `TechniqueSelector.generateEmotionPrompt`. -/
def generateEmotionPrompt (analysis : AnalysisResult) : String :=
  if analysis.implicitContext.any (fun c => containsSub c.data "produção".data) then
    "Isso é crítico para produção e requer máxima qualidade e atenção aos detalhes"
  else if analysis.complexityLevel = .expert then
    "Esse é um desafio técnico importante que demanda precisão e expertise"
  else
    "Isso é importante e precisa ser feito com cuidado e precisão"

/-- `TechniqueSelector.generatePastConsistency`. -/
def generatePastConsistency (analysis : AnalysisResult) : String :=
  "Você me explicou anteriormente sobre " ++ jsStrOr analysis.keywords.head? "esse tópico"
    ++ ", mas agora preciso aplicar especificamente"

/-- `TechniqueSelector.generateFalseRestriction`; the source picks
`restrictions[Math.floor(Math.random() * restrictions.length)]`, the random
draw is the explicit `rnd` parameter. -/
def generateFalseRestriction (rnd : Nat) (_analysis : AnalysisResult) : String :=
  let restrictions :=
    ["Use conceitos de design moderno e minimalista",
     "Aplique princípios de UX/UI de alta qualidade",
     "Pense em termos de experiência do usuário excepcional"]
  restrictions.getD (rnd % 3) ""

/-- `TechniqueSelector.generateDisagreement`. -/
def generateDisagreement (analysis : AnalysisResult) : String :=
  "Alguns especialistas argumentam contra essa abordagem de "
    ++ String.intercalate " e " (analysis.keywords.take 2)

/-- `TechniqueSelector.applyMandatoryTechniques`. -/
def applyMandatoryTechniques (analysis : AnalysisResult) : List TechniqueApplication :=
  [{ technique := .role_prompting,
     reason := "Estabelece expertise e contexto profissional adequado",
     implementation := generateRole analysis },
   { technique := .iq_attribution,
     reason := "Define nível de sofisticação " ++ complexityStr analysis.complexityLevel,
     implementation := "com QI " ++ toString analysis.suggestedIQ }]
  ++ (if shouldUseEmotionPrompting analysis then
        [{ technique := .emotion_prompting,
           reason := "Aumenta atenção e cuidado na resposta",
           implementation := generateEmotionPrompt analysis }]
      else [])

/-- `TechniqueSelector.calculateRelevanceScore`. -/
def calculateRelevanceScore (application : TechniqueApplication)
    (analysis : AnalysisResult) : Nat :=
  let expertBonus :=
    if analysis.complexityLevel = .expert ∧
        application.technique ∈
          ([.fake_past_consistency, .bet_100_dollars, .simtom] : List PromptingTechnique)
    then 3 else 0
  let matchingTasks : List TaskType :=
    match application.technique with
    | .fake_audience => [.educacional]
    | .false_restriction => [.criativa]
    | .someone_disagrees => [.analitica, .debate]
    | .bet_100_dollars => [.codigo]
    | .simtom => [.mista]
    | _ => []
  expertBonus + (if analysis.taskType ∈ matchingTasks then 5 else 0)

/-- `TechniqueSelector.rankCandidates`: stable descending sort by relevance. -/
def rankCandidates (candidates : List TechniqueApplication)
    (analysis : AnalysisResult) : List TechniqueApplication :=
  sortDescBy (fun a => calculateRelevanceScore a analysis) candidates

/-- `TechniqueSelector.selectSituationalTechniques` (candidate generation in
source order, then ranking). -/
def selectSituationalTechniques (rnd : Nat) (analysis : AnalysisResult) :
    List TechniqueApplication :=
  let candidates :=
    (if analysis.complexityLevel = .expert ∨ analysis.taskType = .tecnica then
        [{ technique := .fake_past_consistency,
           reason := "Estabelece continuidade para tópico técnico complexo",
           implementation := generatePastConsistency analysis }]
      else [])
    ++ (if analysis.taskType = .educacional ∨
           containsSub analysis.targetAudience.data "Estudante".data then
          [{ technique := .fake_audience,
             reason := "Adapta explicação para audiência específica",
             implementation := "Explique como se apresentasse para "
               ++ lowerStr analysis.targetAudience }]
        else [])
    ++ (if analysis.taskType = .criativa then
          [{ technique := .false_restriction,
             reason := "Força pensamento criativo através de restrições",
             implementation := generateFalseRestriction rnd analysis }]
        else [])
    ++ (if analysis.taskType = .analitica ∨ analysis.taskType = .debate then
          [{ technique := .someone_disagrees,
             reason := "Estimula análise crítica através de perspectiva oposta",
             implementation := generateDisagreement analysis }]
        else [])
    ++ (if analysis.taskType = .codigo ∧ analysis.complexityLevel ≠ .basico then
          [{ technique := .bet_100_dollars,
             reason := "Garante validação técnica rigorosa",
             implementation := "Vamos validar com precisão extrema, como se apostássemos nisso" }]
        else [])
    ++ (if analysis.taskType = .mista ∨
           analysis.implicitContext.any (fun c => containsSub c.data "Cliente".data) then
          [{ technique := .simtom,
             reason := "Analisa sob múltiplas perspectivas de stakeholders",
             implementation := "Considere as perspectivas do usuário final, desenvolvedor e negócio" }]
        else [])
    ++ (if analysis.keywords.length < 3 ∨
           containsSub analysis.mainObjective.data "Resolver solicitação".data then
          [{ technique := .rar,
             reason := "Clarifica entendimento antes de responder",
             implementation := "Primeiro confirme o entendimento reformulando o pedido" }]
        else [])
  rankCandidates candidates analysis

/-- `TechniqueSelector.selectTechniques`: all mandatory techniques followed by
at most 2 top-ranked situational ones.  (The doc comment in the source promises
"3-4 techniques maximum (Golden Rule)".) -/
def selectTechniques (rnd : Nat) (analysis : AnalysisResult) :
    List TechniqueApplication :=
  applyMandatoryTechniques analysis
    ++ (selectSituationalTechniques rnd analysis).take 2

end TechniqueSelector

/-! ## Meta-instruction framework (src/src/types.ts) and builder
(MetaInstructionBuilder, src/src/meta-instruction-builder.ts) -/

structure CognitiveAnalysisProtocol where
  taskIdentification : String
  complexityAssessment : String
  objectiveClarity : String
  deriving DecidableEq

structure EngineeringDirective where
  step : Nat
  directive : String
  technique : String
  reasoning : String
  deriving DecidableEq

structure StructuralElements where
  contextRequirements : List String
  constraintsToObserve : List String
  outputFormatGuidelines : List String
  deriving DecidableEq

structure MetaInstructionFramework where
  metaType : String := "meta_instructions"  -- the source field is named `type`
  cognitiveAnalysisProtocol : CognitiveAnalysisProtocol
  promptEngineeringDirectives : List EngineeringDirective
  requiredStructuralElements : StructuralElements
  thinkingProtocol : List String
  originalRequest : String
  generationDirective : String
  deriving DecidableEq

structure ValidationResult where
  isValid : Bool
  issues : List String
  deriving DecidableEq

namespace MetaInstructionBuilder

/-- `MetaInstructionBuilder.translateTaskType`. -/
def translateTaskType : TaskType → String
  | .codigo => "code/programming"
  | .tecnica => "technical/methodological"
  | .criativa => "creative"
  | .analitica => "analytical"
  | .educacional => "educational"
  | .debate => "debate/argumentation"
  | .documentacao => "documentation"
  | .mista => "mixed/multidisciplinary"

/-- `MetaInstructionBuilder.getApproachType`. -/
def getApproachType : TaskType → String
  | .codigo => "implementation-focused"
  | .tecnica => "methodological"
  | .criativa => "innovative and design-thinking"
  | .analitica => "comparative and evidence-based"
  | .educacional => "pedagogical"
  | .debate => "argumentative and critical"
  | .documentacao => "descriptive and comprehensive"
  | .mista => "holistic"

/-- `MetaInstructionBuilder.buildCognitiveProtocol`. -/
def buildCognitiveProtocol (analysis : AnalysisResult) : CognitiveAnalysisProtocol :=
  { taskIdentification := "Identify this as a " ++ translateTaskType analysis.taskType
      ++ " task requiring " ++ getApproachType analysis.taskType ++ " approach"
    complexityAssessment := "Assess complexity level as "
      ++ TechniqueSelector.complexityStr analysis.complexityLevel
      ++ " requiring " ++ toString analysis.suggestedIQ ++ "+ IQ attribution"
    objectiveClarity := "Clarify the main objective: " ++ analysis.mainObjective }

/-- `MetaInstructionBuilder.getRoleInstruction`. -/
def getRoleInstruction (analysis : AnalysisResult) : String :=
  let roleHead :=
    match analysis.taskType with
    | .codigo => "Assume the role of a senior software developer specialized in"
    | .tecnica => "Assume the role of a technical specialist in"
    | .criativa => "Assume the role of a creative designer and innovator in"
    | .analitica => "Assume the role of an analytical specialist in"
    | .educacional => "Assume the role of an experienced educator in"
    | .debate => "Assume the role of a critical thinker and debater in"
    | .documentacao => "Assume the role of a specialized technical writer in"
    | .mista => "Assume the role of a multidisciplinary professional in"
  roleHead ++ " " ++ jsStrOr analysis.keywords.head? "the relevant domain"

/-- `MetaInstructionBuilder.getTechniqueInstruction` (techniques missing from
the instruction map fall back to the empty string). -/
def getTechniqueInstruction (tech : TechniqueApplication)
    (analysis : AnalysisResult) : String :=
  match tech.technique with
  | .fake_past_consistency =>
      "Apply \"Fake Past Consistency\" by mentioning previous work or discussion about "
        ++ jsStrOr analysis.keywords.head? "this topic"
  | .emotion_prompting =>
      "Add emotional weight using \"Emotion Prompting\" - emphasize importance and critical nature of the task"
  | .fake_audience =>
      "Include \"Fake Audience\" technique - frame as if presenting to "
        ++ analysis.targetAudience
  | .obviously =>
      "Use \"Obviously\" technique to frame certain aspects as self-evident"
  | .false_restriction =>
      "Apply creative constraints using \"False Restriction\" - " ++ tech.implementation
  | .version_2 => "Reference this as version 2.0 of a solution"
  | .someone_disagrees =>
      "Use \"Someone Disagrees\" technique - acknowledge opposing viewpoint: "
        ++ tech.implementation
  | .bet_100_dollars =>
      "Apply \"Bet $100\" technique to emphasize validation and precision"
  | .simtom =>
      "Include \"SimToM\" (Simulation Theory of Mind) - consider multiple stakeholder perspectives"
  | .rar =>
      "Use \"RaR\" (Rephrase and Respond) - first rephrase the request to confirm understanding"
  | .re2 => "Apply \"RE2\" (Read Twice) methodology for deeper analysis"
  | _ => ""

/-- `MetaInstructionBuilder.getStructureInstruction`. -/
def getStructureInstruction (analysis : AnalysisResult) : String :=
  if analysis.taskType = .codigo then
    "Structure the prompt in sections: Role & Context, Task Description, Technical Requirements, Quality Standards, Expected Output"
  else if analysis.taskType = .educacional then
    "Structure the prompt in sections: Expert Role, Learning Objective, Explanation Approach, Examples Required, Validation Criteria"
  else
    "Structure the prompt in clear sections: Context, Objective, Requirements, Constraints, Expected Output Format"

/-- The middle loop of `buildEngineeringDirectives`: techniques other than
role/IQ whose mapped instruction is non-empty (JS truthiness of the looked-up
string), paired with that instruction. -/
def middleDirectivePairs (analysis : AnalysisResult)
    (techniques : List TechniqueApplication) : List (TechniqueApplication × String) :=
  techniques.filterMap (fun tech =>
    if tech.technique = .role_prompting ∨ tech.technique = .iq_attribution then none
    else
      let instruction := getTechniqueInstruction tech analysis
      if instruction = "" then none else some (tech, instruction))

/-- `MetaInstructionBuilder.buildEngineeringDirectives`. -/
def buildEngineeringDirectives (analysis : AnalysisResult)
    (techniques : List TechniqueApplication) : List EngineeringDirective :=
  let mids := middleDirectivePairs analysis techniques
  [{ step := 1, directive := getRoleInstruction analysis,
     technique := "Role Prompting",
     reasoning := "Establish domain expertise and professional context" },
   { step := 2,
     directive := "Apply IQ Attribution technique by stating you have IQ "
       ++ toString analysis.suggestedIQ ++ " in this domain",
     technique := "IQ Attribution",
     reasoning := "Sets sophistication level appropriate for "
       ++ TechniqueSelector.complexityStr analysis.complexityLevel ++ " complexity" }]
  ++ mids.enum.map (fun p =>
      { step := p.1 + 3, directive := p.2.2,
        technique := (TECHNIQUES p.2.1.technique).displayName,
        reasoning := p.2.1.reason })
  ++ [{ step := mids.length + 3, directive := getStructureInstruction analysis,
        technique := "Structural Organization",
        reasoning := "Ensures clear organization and readability" }]

/-- `MetaInstructionBuilder.getContextRequirements`. -/
def getContextRequirements (analysis : AnalysisResult) : List String :=
  ["Domain: " ++ String.intercalate ", " analysis.keywords,
   "Complexity Level: " ++ TechniqueSelector.complexityStr analysis.complexityLevel,
   "Target Audience: " ++ analysis.targetAudience]
  ++ (if 0 < analysis.implicitContext.length then
        analysis.implicitContext.map (fun c => "Context: " ++ c)
      else [])

/-- `MetaInstructionBuilder.getConstraints`. -/
def getConstraints (analysis : AnalysisResult)
    (techniques : List TechniqueApplication) : List String :=
  (if analysis.taskType = .codigo then
      ["Code must be complete and immediately executable",
       "Include proper error handling",
       "Follow best practices and clean code principles"]
    else [])
  ++ (if analysis.complexityLevel = .expert ∨ analysis.complexityLevel = .avancado then
        ["Solution must be optimized and production-ready",
         "Consider edge cases and scalability"]
      else [])
  ++ (match techniques.find? (fun t => t.technique = .false_restriction) with
      | some restrictionTech => [restrictionTech.implementation]
      | none => [])

/-- `MetaInstructionBuilder.getFormatGuidelines`. -/
def getFormatGuidelines (analysis : AnalysisResult) : List String :=
  if analysis.taskType = .codigo then
    ["Provide complete, runnable code",
     "Include explanatory comments",
     "Add usage examples when appropriate"]
  else if analysis.taskType = .educacional then
    ["Clear, didactic explanation", "Practical examples", "Highlighted key concepts"]
  else if analysis.taskType = .analitica then
    ["Detailed comparative analysis", "Pros and cons for each option",
     "Evidence-based recommendation"]
  else
    ["Clear and structured response", "Actionable information", "Examples when relevant"]

/-- `MetaInstructionBuilder.buildStructuralRequirements`. -/
def buildStructuralRequirements (analysis : AnalysisResult)
    (techniques : List TechniqueApplication) : StructuralElements :=
  { contextRequirements := getContextRequirements analysis
    constraintsToObserve := getConstraints analysis techniques
    outputFormatGuidelines := getFormatGuidelines analysis }

/-- `MetaInstructionBuilder.buildThinkingProtocol`: a fixed 3-step opening, an
extra pair of steps only for code/creative/analytical tasks, and a fixed
2-step closing. -/
def buildThinkingProtocol (analysis : AnalysisResult) : List String :=
  ["Step 1: Read and analyze the original request carefully",
   "Step 2: Identify the core problem and implicit requirements",
   "Step 3: Consider the domain expertise needed"]
  ++ (if analysis.taskType = .codigo then
        ["Step 4: Think about architecture, edge cases, and best practices",
         "Step 5: Consider error handling and maintainability"]
      else if analysis.taskType = .criativa then
        ["Step 4: Think about innovative approaches and creative constraints",
         "Step 5: Consider aesthetic and functional balance"]
      else if analysis.taskType = .analitica then
        ["Step 4: Analyze multiple perspectives and trade-offs",
         "Step 5: Formulate evidence-based conclusions"]
      else [])
  ++ ["Step 6: Structure the prompt with clear sections and requirements",
      "Step 7: Validate that all meta-instructions are incorporated"]

/-- `MetaInstructionBuilder.buildGenerationDirective`. -/
def buildGenerationDirective (analysis : AnalysisResult) : String :=
  "Based on these meta-instructions, generate an optimized prompt that incorporates all the directives above. The prompt should guide the AI to produce "
    ++ translateTaskType analysis.taskType ++ " output with "
    ++ TechniqueSelector.complexityStr analysis.complexityLevel
    ++ " level sophistication. Remember: you are GENERATING the prompt now, not executing it."

/-- `MetaInstructionBuilder.buildMetaInstructions`. -/
def buildMetaInstructions (originalRequest : String) (analysis : AnalysisResult)
    (techniques : List TechniqueApplication) : MetaInstructionFramework :=
  { metaType := "meta_instructions"
    cognitiveAnalysisProtocol := buildCognitiveProtocol analysis
    promptEngineeringDirectives := buildEngineeringDirectives analysis techniques
    requiredStructuralElements := buildStructuralRequirements analysis techniques
    thinkingProtocol := buildThinkingProtocol analysis
    originalRequest := originalRequest
    generationDirective := buildGenerationDirective analysis }

/-- `MetaInstructionBuilder.validateMetaInstructions`. -/
def validateMetaInstructions (framework : MetaInstructionFramework) : ValidationResult :=
  let issues :=
    (if framework.promptEngineeringDirectives.length = 0 then
        ["No prompt engineering directives provided"] else [])
    ++ (if ¬ containsSub (lowerL framework.generationDirective.data) "generate".data ∧
           ¬ containsSub (lowerL framework.generationDirective.data) "construct".data ∧
           ¬ containsSub (lowerL framework.generationDirective.data) "build".data then
          ["Generation directive does not instruct AI to generate prompt"] else [])
    ++ (if framework.thinkingProtocol.length < 3 then
          ["Thinking protocol is too shallow (minimum 3 steps)"] else [])
    ++ (if framework.requiredStructuralElements.contextRequirements.length = 0 then
          ["Missing context requirements"] else [])
  { isValid := issues.length = 0, issues := issues }

end MetaInstructionBuilder

/-! ## Prompt formatter justification (PromptFormatter, src/unnamed/part_001,
first document) -/

structure JustificationEntry where
  name : String
  reason : String
  deriving DecidableEq

structure TechnicalJustification where
  techniques : List JustificationEntry
  expectedImprovements : List String
  deriving DecidableEq

namespace PromptFormatter

/-- `PromptFormatter.identifyImprovements`. -/
def identifyImprovements (analysis : AnalysisResult)
    (techniques : List TechniqueApplication) : List String :=
  (if techniques.any (fun t => t.technique = .role_prompting) then
      ["Resposta mais contextualizada e profissional"] else [])
  ++ (if techniques.any (fun t => t.technique = .iq_attribution) then
        ["Profundidade de resposta apropriada para nível "
           ++ TechniqueSelector.complexityStr analysis.complexityLevel] else [])
  ++ (if techniques.any (fun t => t.technique = .emotion_prompting) then
        ["Maior atenção a detalhes e qualidade"] else [])
  ++ (if analysis.taskType = .codigo then
        ["Código mais robusto e bem estruturado",
         "Melhores práticas aplicadas consistentemente"]
      else if analysis.taskType = .educacional then
        ["Explicação mais clara e didática", "Conceitos mais bem exemplificados"]
      else [])
  ++ (if analysis.complexityLevel = .expert then
        ["Abordagem mais sofisticada e otimizada",
         "Consideração de edge cases e cenários complexos"] else [])
  ++ (if techniques.any (fun t => t.technique = .fake_past_consistency) then
        ["Maior coerência e continuidade técnica"] else [])
  ++ (if techniques.any (fun t => t.technique = .simtom) then
        ["Análise multi-perspectiva mais completa"] else [])
  ++ (if techniques.any (fun t => t.technique = .bet_100_dollars) then
        ["Validação técnica mais rigorosa"] else [])

/-- `PromptFormatter.buildJustification`. -/
def buildJustification (techniques : List TechniqueApplication)
    (analysis : AnalysisResult) : TechnicalJustification :=
  { techniques := techniques.map (fun t =>
      { name := (TECHNIQUES t.technique).displayName, reason := t.reason })
    expectedImprovements := identifyImprovements analysis techniques }

end PromptFormatter

/-! ## Quality metrics (QualityEvaluator, src/src/quality-metrics.ts) -/

structure QualityBreakdown where
  clarity : Int
  completeness : Int
  specificity : Int
  techniqueBalance : Int
  actionability : Int
  deriving DecidableEq

inductive Confidence
  | high | medium | low
  deriving DecidableEq

structure QualityScore where
  overall : Int
  breakdown : QualityBreakdown
  strengths : List String
  improvements : List String
  confidence : Confidence
  deriving DecidableEq

structure MetaInstructionMetrics where
  directiveCount : Nat
  avgDirectiveLength : ℚ
  structuralElementsCount : Nat
  thinkingSteps : Nat
  techniquesCovered : Nat
  hasExamples : Bool
  hasFallbacks : Bool
  deriving DecidableEq

namespace QualityEvaluator

/-- `Math.round` on an exact rational (JS rounds ties toward +infinity). -/
def jsRound (x : ℚ) : Int := ⌊x + 1/2⌋

/-- Clamp a score into [0, 100]: `Math.max(0, Math.min(100, score))`. -/
def clampScore (x : Int) : Int := max 0 (min 100 x)

/-- `QualityEvaluator.calculateMetrics`. -/
def calculateMetrics (metaInstructions : MetaInstructionFramework) :
    MetaInstructionMetrics :=
  let directives := metaInstructions.promptEngineeringDirectives
  let avgLength : ℚ :=
    if 0 < directives.length then
      ((directives.foldl (fun sum d => sum + d.directive.length) 0 : Nat) : ℚ)
        / (directives.length : ℚ)
    else 0
  { directiveCount := directives.length
    avgDirectiveLength := avgLength
    structuralElementsCount :=
      metaInstructions.requiredStructuralElements.contextRequirements.length
        + metaInstructions.requiredStructuralElements.constraintsToObserve.length
        + metaInstructions.requiredStructuralElements.outputFormatGuidelines.length
    thinkingSteps := metaInstructions.thinkingProtocol.length
    techniquesCovered := directives.length
    hasExamples := false
    hasFallbacks := false }

/-- `QualityEvaluator.evaluateClarity` (note: the generation-directive verb
check here does not lowercase, unlike the validator). -/
def evaluateClarity (metaInstructions : MetaInstructionFramework)
    (metrics : MetaInstructionMetrics) : Int :=
  let afterDirectives : Int :=
    metaInstructions.promptEngineeringDirectives.foldl
      (fun score d =>
        score - (if d.directive.length < 30 then 5 else 0)
              - (if 200 < d.directive.length then 3 else 0)
              - (if d.reasoning = "" ∨ d.reasoning.length < 20 then 8 else 0))
      100
  let afterThinking :=
    afterDirectives - (if metrics.thinkingSteps < 4 then 10 else 0)
      - (if 10 < metrics.thinkingSteps then 5 else 0)
  let afterDirective :=
    afterThinking -
      (if ¬ containsSub metaInstructions.generationDirective.data "generate".data ∧
          ¬ containsSub metaInstructions.generationDirective.data "construct".data ∧
          ¬ containsSub metaInstructions.generationDirective.data "build".data
       then 15 else 0)
  clampScore afterDirective

/-- `QualityEvaluator.evaluateCompleteness`. -/
def evaluateCompleteness (metaInstructions : MetaInstructionFramework)
    (metrics : MetaInstructionMetrics) : Int :=
  let score : Int :=
    (if 10 < metaInstructions.cognitiveAnalysisProtocol.taskIdentification.length then 7 else 0)
    + (if 10 < metaInstructions.cognitiveAnalysisProtocol.complexityAssessment.length then 7 else 0)
    + (if 10 < metaInstructions.cognitiveAnalysisProtocol.objectiveClarity.length then 6 else 0)
    + (if 3 ≤ metrics.directiveCount then 10 else 0)
    + (if 4 ≤ metrics.directiveCount then 8 else 0)
    + (if 5 ≤ metrics.directiveCount then 7 else 0)
    + (if 0 < metaInstructions.requiredStructuralElements.contextRequirements.length then 8 else 0)
    + (if 0 < metaInstructions.requiredStructuralElements.outputFormatGuidelines.length then 9 else 0)
    + (if 0 < metaInstructions.requiredStructuralElements.constraintsToObserve.length then 8 else 0)
    + (if 4 ≤ metrics.thinkingSteps then 10 else 0)
    + (if 6 ≤ metrics.thinkingSteps then 10 else 0)
    + (if 50 < metaInstructions.generationDirective.length then 10 else 0)
  min 100 score

/-- `QualityEvaluator.evaluateSpecificity`. -/
def evaluateSpecificity (metaInstructions : MetaInstructionFramework)
    (analysis : AnalysisResult) : Int :=
  let directives := metaInstructions.promptEngineeringDirectives
  let hasKeywordInDirectives := directives.any (fun d =>
    analysis.keywords.any (fun kw =>
      containsSub (lowerL d.directive.data) (lowerL kw.data)))
  let contextReqs := metaInstructions.requiredStructuralElements.contextRequirements
  let genericPhrases := ["appropriate", "relevant", "suitable", "proper"]
  let genericCount := (directives.filter (fun d =>
    genericPhrases.any (fun phrase =>
      containsSub (lowerL d.directive.data) phrase.data))).length
  let score : Int :=
    70 + (if hasKeywordInDirectives then 15 else 0)
      + (if 3 ≤ contextReqs.length then 10 else 0)
      + (if contextReqs.any (fun req => 30 < req.length) then 5 else 0)
      + (if 0 < metaInstructions.requiredStructuralElements.constraintsToObserve.length
         then 5 else 0)
      - genericCount * 3
  clampScore score

/-- `QualityEvaluator.evaluateTechniqueBalance`. -/
def evaluateTechniqueBalance (techniques : List TechniqueApplication) : Int :=
  let hasMandatory := techniques.any (fun t =>
    t.technique ∈ ([.role_prompting, .iq_attribution] : List PromptingTechnique))
  let mandatoryCount := (techniques.filter (fun t =>
    t.technique ∈
      ([.role_prompting, .iq_attribution, .emotion_prompting] : List PromptingTechnique))).length
  let situationalCount := techniques.length - mandatoryCount
  let score : Int :=
    100 - (if techniques.length < 3 then 20 else 0)
      - (if 5 < techniques.length then ((techniques.length : Int) - 5) * 10 else 0)
      - (if ¬ hasMandatory then 30 else 0)
      + (if 2 ≤ mandatoryCount ∧ 1 ≤ situationalCount ∧ situationalCount ≤ 2 then 10 else 0)
  clampScore score

/-- The regex test `/step\s+\d+/i` on a thinking step. -/
def stepNumAt : List Char → Bool
  | 's' :: 't' :: 'e' :: 'p' :: rest =>
      let ws := rest.takeWhile Char.isWhitespace
      (!ws.isEmpty) &&
        (match rest.dropWhile Char.isWhitespace with
         | c :: _ => c.isDigit
         | [] => false)
  | _ => false

def hasStepNum (l : List Char) : Bool := l.tails.any stepNumAt

/-- `QualityEvaluator.evaluateActionability`. -/
def evaluateActionability (metaInstructions : MetaInstructionFramework) : Int :=
  let directives := metaInstructions.promptEngineeringDirectives
  let actionVerbs := ["apply", "implement", "use", "include", "add", "create",
                      "define", "specify"]
  let actionableCount := (directives.filter (fun d =>
    actionVerbs.any (fun verb => containsSub (lowerL d.directive.data) verb.data))).length
  let hasStepNumbers := metaInstructions.thinkingProtocol.any (fun step =>
    hasStepNum (lowerL step.data))
  let vagueCount := (directives.filter (fun d =>
    d.directive.length < 40 ∨ d.reasoning = "")).length
  let score : Int :=
    80 + min 20 ((actionableCount : Int) * 4)
      + (if hasStepNumbers then 5 else 0)
      + (if containsSub (lowerL metaInstructions.generationDirective.data)
             "based on these".data ∨
            containsSub (lowerL metaInstructions.generationDirective.data)
             "following these".data then 5 else 0)
      - (vagueCount : Int) * 5
  clampScore score

/-- `QualityEvaluator.calculateOverallScore`: the weighted sum over the five
breakdown axes (weights 0.25/0.25/0.20/0.15/0.15 modelled as exact rationals),
rounded with `Math.round`. -/
def calculateOverallScore (breakdown : QualityBreakdown) : Int :=
  jsRound ((breakdown.clarity : ℚ) * (1/4) + (breakdown.completeness : ℚ) * (1/4)
    + (breakdown.specificity : ℚ) * (1/5) + (breakdown.techniqueBalance : ℚ) * (3/20)
    + (breakdown.actionability : ℚ) * (3/20))

/-- `QualityEvaluator.identifyStrengths`. -/
def identifyStrengths (breakdown : QualityBreakdown)
    (metrics : MetaInstructionMetrics) : List String :=
  (if 85 ≤ breakdown.clarity then
      ["Exceptionally clear and well-structured directives"] else [])
  ++ (if 85 ≤ breakdown.completeness then
        ["Comprehensive coverage of all necessary elements"] else [])
  ++ (if 85 ≤ breakdown.specificity then
        ["Highly specific and domain-relevant instructions"] else [])
  ++ (if 85 ≤ breakdown.techniqueBalance then
        ["Optimal balance of prompting techniques"] else [])
  ++ (if 85 ≤ breakdown.actionability then
        ["Clear, actionable directives easy to follow"] else [])
  ++ (if 6 ≤ metrics.thinkingSteps then
        ["Detailed thinking protocol for systematic approach"] else [])
  ++ (if 6 ≤ metrics.structuralElementsCount then
        ["Rich structural requirements for comprehensive output"] else [])

/-- `QualityEvaluator.identifyImprovements`. -/
def identifyImprovementsQE (breakdown : QualityBreakdown)
    (metrics : MetaInstructionMetrics) : List String :=
  (if breakdown.clarity < 70 then
      ["Increase clarity of directives with more specific language"] else [])
  ++ (if breakdown.completeness < 70 then
        ["Add missing structural elements or thinking steps"] else [])
  ++ (if breakdown.specificity < 70 then
        ["Make instructions more domain-specific and less generic"] else [])
  ++ (if breakdown.techniqueBalance < 70 then
        ["Adjust number of techniques for better cognitive balance"] else [])
  ++ (if breakdown.actionability < 70 then
        ["Use more action verbs and specific implementation guidance"] else [])
  ++ (if metrics.directiveCount < 3 then
        ["Add more prompt engineering directives"] else [])
  ++ (if metrics.thinkingSteps < 5 then
        ["Expand thinking protocol with more detailed steps"] else [])
  ++ (if metrics.structuralElementsCount < 4 then
        ["Include more structural requirements and constraints"] else [])

/-- `QualityEvaluator.assessConfidence`. -/
def assessConfidence (overall : Int) (metrics : MetaInstructionMetrics) : Confidence :=
  if 85 ≤ overall ∧ 4 ≤ metrics.directiveCount ∧ 5 ≤ metrics.thinkingSteps then .high
  else if 70 ≤ overall ∧ 3 ≤ metrics.directiveCount then .medium
  else .low

/-- `QualityEvaluator.evaluateQuality`. -/
def evaluateQuality (metaInstructions : MetaInstructionFramework)
    (analysis : AnalysisResult) (techniques : List TechniqueApplication) :
    QualityScore :=
  let metrics := calculateMetrics metaInstructions
  let clarity := evaluateClarity metaInstructions metrics
  let completeness := evaluateCompleteness metaInstructions metrics
  let specificity := evaluateSpecificity metaInstructions analysis
  let techniqueBalance := evaluateTechniqueBalance techniques
  let actionability := evaluateActionability metaInstructions
  let breakdown : QualityBreakdown :=
    { clarity := clarity, completeness := completeness, specificity := specificity,
      techniqueBalance := techniqueBalance, actionability := actionability }
  let overall := calculateOverallScore breakdown
  { overall := overall
    breakdown := breakdown
    strengths := identifyStrengths breakdown metrics
    improvements := identifyImprovementsQE breakdown metrics
    confidence := assessConfidence overall metrics }

end QualityEvaluator

/-! ## Orchestrator (PromptOptimizer, src/src/optimizer.ts) -/

structure AnalysisSummary where
  originalRequest : String
  taskType : TaskType
  identifiedObjective : String
  appliedTechniques : List PromptingTechnique
  detectedDomain : Option String := none
  deriving DecidableEq

/-- The loose `qualityScore` record of `OptimizationResult` in src/src/types.ts
(`{overall, confidence, breakdown: Record<string, number>}`). -/
structure QualityScoreField where
  overall : Int
  confidence : String
  breakdown : List (String × Int)
  deriving DecidableEq

structure OptimizationResult where
  analysis : AnalysisSummary
  metaInstructions : MetaInstructionFramework
  technicalJustification : TechnicalJustification
  qualityScore : Option QualityScoreField := none
  fewShotExamples : Option String := none
  deriving DecidableEq

namespace PromptOptimizer

/-- `PromptOptimizer.optimize`: analyze, select techniques, build
meta-instructions, build the justification, and assemble the result.  The
optional `qualityScore` and `fewShotExamples` fields are not set by the
source. -/
def optimize (rnd : Nat) (request : OptimizationRequest) : OptimizationResult :=
  let analysis := RequestAnalyzer.analyze request.user_request request.context
  let techniques := TechniqueSelector.selectTechniques rnd analysis
  let metaInstructions :=
    MetaInstructionBuilder.buildMetaInstructions request.user_request analysis techniques
  let justification := PromptFormatter.buildJustification techniques analysis
  { analysis :=
      { originalRequest := request.user_request
        taskType := analysis.taskType
        identifiedObjective := analysis.mainObjective
        appliedTechniques := techniques.map (fun t => t.technique) }
    metaInstructions := metaInstructions
    technicalJustification := justification }

/-- `PromptOptimizer.validateResult`. -/
def validateResult (result : OptimizationResult) : ValidationResult :=
  let issues :=
    (if result.analysis.identifiedObjective.length < 10 then
        ["Objetivo não está claro e bem definido"] else [])
    ++ (if 4 < result.analysis.appliedTechniques.length then
          ["Muitas técnicas aplicadas (máximo 4)"] else [])
    ++ (if result.analysis.appliedTechniques.length < 2 then
          ["Poucas técnicas aplicadas (mínimo 2)"] else [])
    ++ (MetaInstructionBuilder.validateMetaInstructions result.metaInstructions).issues
    ++ (if ¬ containsSub (lowerL result.metaInstructions.generationDirective.data)
             "generate".data ∧
           ¬ containsSub (lowerL result.metaInstructions.generationDirective.data)
             "build".data ∧
           ¬ containsSub (lowerL result.metaInstructions.generationDirective.data)
             "construct".data then
          ["CRITICAL: Meta-instructions must instruct AI to GENERATE prompt, not provide it ready"]
        else [])
  { isValid := issues.length = 0, issues := issues }

end PromptOptimizer

/-! ## Domain templates and matcher (src/unnamed/part_000) -/

structure DomainTemplate where
  domain : String
  taskType : TaskType
  roleTemplate : String
  contextualHints : List String
  structuralGuidelines : List String
  commonPitfalls : List String
  examplePatterns : List String
  deriving DecidableEq

namespace DomainTemplates

def web_frontend : DomainTemplate :=
  { domain := "Frontend Web Development", taskType := .codigo,
    roleTemplate := "senior frontend developer specialized in modern web technologies",
    contextualHints :=
      ["Consider responsive design and mobile-first approach",
       "Think about accessibility (WCAG 2.1 guidelines)",
       "Performance optimization (Core Web Vitals)",
       "SEO implications", "Browser compatibility"],
    structuralGuidelines :=
      ["Component architecture and reusability", "State management strategy",
       "Styling approach (CSS-in-JS, modules, etc)", "Performance considerations",
       "Testing strategy"],
    commonPitfalls :=
      ["Avoid inline styles without justification", "Consider bundle size impact",
       "Ensure proper error boundaries", "Handle loading and error states"],
    examplePatterns :=
      ["Use TypeScript for type safety", "Implement proper prop validation",
       "Follow component composition patterns"] }

def web_backend : DomainTemplate :=
  { domain := "Backend Web Development", taskType := .codigo,
    roleTemplate := "senior backend developer specialized in scalable architectures",
    contextualHints :=
      ["Consider scalability and performance", "Think about database optimization",
       "API design best practices (RESTful/GraphQL)",
       "Security considerations (OWASP Top 10)", "Caching strategies"],
    structuralGuidelines :=
      ["Clean architecture principles", "Database schema design",
       "API endpoint structure", "Error handling and logging",
       "Authentication/Authorization flow"],
    commonPitfalls :=
      ["Avoid N+1 query problems", "Prevent SQL injection", "Handle rate limiting",
       "Implement proper validation"],
    examplePatterns :=
      ["Use dependency injection", "Implement repository pattern",
       "Apply SOLID principles"] }

def machine_learning : DomainTemplate :=
  { domain := "Machine Learning & AI", taskType := .codigo,
    roleTemplate := "senior ML engineer with deep understanding of algorithms and model optimization",
    contextualHints :=
      ["Consider data preprocessing requirements", "Think about model interpretability",
       "Evaluate computational complexity", "Address bias and fairness",
       "Plan for model monitoring"],
    structuralGuidelines :=
      ["Data pipeline architecture", "Model selection rationale",
       "Hyperparameter tuning strategy", "Evaluation metrics selection",
       "Deployment considerations"],
    commonPitfalls :=
      ["Avoid data leakage", "Prevent overfitting", "Handle class imbalance",
       "Consider edge cases in production"],
    examplePatterns :=
      ["Use cross-validation properly", "Implement proper train/val/test splits",
       "Document model assumptions"] }

def data_analysis : DomainTemplate :=
  { domain := "Data Analysis & Visualization", taskType := .analitica,
    roleTemplate := "senior data analyst specialized in statistical analysis and visualization",
    contextualHints :=
      ["Consider statistical significance", "Think about data quality and outliers",
       "Choose appropriate visualization types", "Address missing data",
       "Ensure reproducibility"],
    structuralGuidelines :=
      ["Exploratory data analysis steps", "Statistical test selection",
       "Visualization design principles", "Interpretation guidelines",
       "Reporting format"],
    commonPitfalls :=
      ["Avoid correlation-causation confusion", "Be aware of Simpson\x27s paradox",
       "Handle missing data appropriately", "Choose correct statistical tests"],
    examplePatterns :=
      ["Document data transformations", "Provide context for metrics",
       "Include confidence intervals"] }

def devops : DomainTemplate :=
  { domain := "DevOps & Infrastructure", taskType := .tecnica,
    roleTemplate := "senior DevOps engineer specialized in cloud infrastructure and automation",
    contextualHints :=
      ["Consider infrastructure as code practices",
       "Think about CI/CD pipeline optimization", "Evaluate cost implications",
       "Plan for disaster recovery", "Address security compliance"],
    structuralGuidelines :=
      ["Infrastructure architecture", "Deployment strategy",
       "Monitoring and alerting setup", "Backup and recovery procedures",
       "Security hardening steps"],
    commonPitfalls :=
      ["Avoid hardcoded credentials", "Prevent configuration drift",
       "Handle secrets management", "Implement proper logging"],
    examplePatterns :=
      ["Use declarative configurations", "Implement blue-green deployments",
       "Apply principle of least privilege"] }

def security : DomainTemplate :=
  { domain := "Cybersecurity & Application Security", taskType := .tecnica,
    roleTemplate := "senior security engineer specialized in application and infrastructure security",
    contextualHints :=
      ["Consider OWASP Top 10 vulnerabilities", "Think about defense in depth",
       "Evaluate attack surface", "Plan for incident response",
       "Address compliance requirements"],
    structuralGuidelines :=
      ["Threat modeling approach", "Security controls implementation",
       "Vulnerability assessment process", "Security testing strategy",
       "Documentation requirements"],
    commonPitfalls :=
      ["Avoid security through obscurity", "Never trust user input",
       "Implement proper session management", "Use secure cryptographic practices"],
    examplePatterns :=
      ["Apply principle of least privilege", "Implement defense in depth",
       "Use secure defaults"] }

def database_design : DomainTemplate :=
  { domain := "Database Design & Optimization", taskType := .codigo,
    roleTemplate := "senior database architect specialized in data modeling and performance optimization",
    contextualHints :=
      ["Consider normalization vs denormalization tradeoffs",
       "Think about query performance", "Evaluate indexing strategy",
       "Plan for data growth", "Address data integrity"],
    structuralGuidelines :=
      ["Entity-relationship modeling", "Schema design decisions", "Index strategy",
       "Query optimization", "Transaction management"],
    commonPitfalls :=
      ["Avoid over-normalization", "Prevent index bloat",
       "Handle concurrent access properly", "Consider query execution plans"],
    examplePatterns :=
      ["Use appropriate data types", "Implement proper constraints",
       "Design for query patterns"] }

def system_design : DomainTemplate :=
  { domain := "Distributed Systems & Architecture", taskType := .tecnica,
    roleTemplate := "senior systems architect specialized in distributed systems and scalability",
    contextualHints :=
      ["Consider CAP theorem tradeoffs", "Think about consistency models",
       "Evaluate latency requirements", "Plan for failure scenarios",
       "Address network partitions"],
    structuralGuidelines :=
      ["Architecture diagram and components", "Communication patterns",
       "Data flow and storage", "Scalability strategy", "Failure handling"],
    commonPitfalls :=
      ["Avoid single points of failure", "Consider network unreliability",
       "Handle eventual consistency", "Prevent cascading failures"],
    examplePatterns :=
      ["Use circuit breakers", "Implement retry with backoff",
       "Apply saga pattern for transactions"] }

def ui_ux_design : DomainTemplate :=
  { domain := "UI/UX Design", taskType := .criativa,
    roleTemplate := "senior UX designer specialized in user-centered design",
    contextualHints :=
      ["Consider user research findings", "Think about accessibility",
       "Evaluate cognitive load", "Plan for different devices",
       "Address user pain points"],
    structuralGuidelines :=
      ["User journey mapping", "Information architecture",
       "Interaction design patterns", "Visual hierarchy", "Usability testing plan"],
    commonPitfalls :=
      ["Avoid design for designers", "Don\x27t ignore edge cases",
       "Prevent feature bloat", "Consider loading states"],
    examplePatterns :=
      ["Follow platform conventions", "Apply progressive disclosure",
       "Use consistent patterns"] }

def api_design : DomainTemplate :=
  { domain := "API Design & Integration", taskType := .tecnica,
    roleTemplate := "senior API architect specialized in RESTful and GraphQL design",
    contextualHints :=
      ["Consider API versioning strategy", "Think about rate limiting",
       "Evaluate authentication methods", "Plan for backward compatibility",
       "Address documentation needs"],
    structuralGuidelines :=
      ["Endpoint design and naming", "Request/response structure",
       "Error handling format", "Authentication flow", "Documentation approach"],
    commonPitfalls :=
      ["Avoid chatty APIs", "Prevent over-fetching/under-fetching",
       "Handle pagination properly", "Implement proper versioning"],
    examplePatterns :=
      ["Use standard HTTP methods correctly", "Implement HATEOAS principles",
       "Follow OpenAPI specification"] }

def algorithms : DomainTemplate :=
  { domain := "Algorithms & Data Structures", taskType := .codigo,
    roleTemplate := "senior algorithms specialist with deep understanding of computational complexity",
    contextualHints :=
      ["Consider time and space complexity", "Think about edge cases",
       "Evaluate algorithm correctness", "Plan for large inputs",
       "Address optimization opportunities"],
    structuralGuidelines :=
      ["Algorithm description and intuition", "Complexity analysis (Big-O)",
       "Implementation with comments", "Test cases including edge cases",
       "Optimization discussion"],
    commonPitfalls :=
      ["Avoid premature optimization", "Consider integer overflow",
       "Handle empty inputs", "Test with large datasets"],
    examplePatterns :=
      ["Start with brute force, then optimize", "Use appropriate data structures",
       "Document time/space tradeoffs"] }

end DomainTemplates

/-- `Object.values(DOMAIN_TEMPLATES)` in declaration order. -/
def DOMAIN_TEMPLATES : List DomainTemplate :=
  [DomainTemplates.web_frontend, DomainTemplates.web_backend,
   DomainTemplates.machine_learning, DomainTemplates.data_analysis,
   DomainTemplates.devops, DomainTemplates.security,
   DomainTemplates.database_design, DomainTemplates.system_design,
   DomainTemplates.ui_ux_design, DomainTemplates.api_design,
   DomainTemplates.algorithms]

namespace DomainMatcher

/-- The per-template score loop of `DomainMatcher.matchDomain`: +5 on task-type
match, +3 per word of the lowercased domain name found in the lowercased
request, +2 per user keyword found in the lowercased domain name. -/
def templateScoreFold (lowerRequest : List Char) (keywords : List String)
    (taskType : TaskType) (template : DomainTemplate) : Nat :=
  let s0 := if template.taskType = taskType then 5 else 0
  let domainKeywords := jsSplitWS (lowerL template.domain.data)
  let s1 := domainKeywords.foldl
    (fun s keyword => if containsSub lowerRequest keyword then s + 3 else s) s0
  keywords.foldl
    (fun s keyword =>
      if containsSub (lowerL template.domain.data) keyword.data then s + 2 else s) s1

/-- The candidate list of `matchDomain`: templates with positive score, paired
with their score, in catalog order. -/
def positiveScores (lowerRequest : List Char) (keywords : List String)
    (taskType : TaskType) : List (DomainTemplate × Nat) :=
  DOMAIN_TEMPLATES.filterMap (fun template =>
    let score := templateScoreFold lowerRequest keywords taskType template
    if 0 < score then some (template, score) else none)

/-- `DomainMatcher.matchDomain`. -/
def matchDomain (request : String) (keywords : List String) (taskType : TaskType) :
    Option DomainTemplate :=
  let lowerRequest := lowerL request.data
  let scores := positiveScores lowerRequest keywords taskType
  match sortDescBy (fun p => p.2) scores with
  | [] => none
  | top :: _ => if 5 ≤ top.2 then some top.1 else none

/-- `DomainMatcher.getContextualHints`. -/
def getContextualHints (template : DomainTemplate)
    (complexityLevel : ComplexityLevel) : List String :=
  template.contextualHints
    ++ (if complexityLevel = .expert ∨ complexityLevel = .avancado then
          template.commonPitfalls
        else [])

/-- The scoring rule as worded in the specification, in counting form: used to
check the loop-based source computation against the spec. -/
def domainScoreSpec (request : String) (keywords : List String)
    (taskType : TaskType) (template : DomainTemplate) : Nat :=
  (if template.taskType = taskType then 5 else 0)
    + 3 * ((jsSplitWS (lowerL template.domain.data)).filter
        (fun w => containsSub (lowerL request.data) w)).length
    + 2 * (keywords.filter
        (fun kw => containsSub (lowerL template.domain.data) kw.data)).length

/-- The maximum `domainScoreSpec` over the whole catalog. -/
def bestDomainScore (request : String) (keywords : List String)
    (taskType : TaskType) : Nat :=
  (DOMAIN_TEMPLATES.map (domainScoreSpec request keywords taskType)).foldr max 0

/-- The selection property claimed for the matcher: a returned template scores
the catalog maximum and that maximum is at least 5; otherwise no template is
returned. -/
def matchDomainSpec (request : String) (keywords : List String)
    (taskType : TaskType) : Prop :=
  match matchDomain request keywords taskType with
  | some t => t ∈ DOMAIN_TEMPLATES
      ∧ domainScoreSpec request keywords taskType t = bestDomainScore request keywords taskType
      ∧ 5 ≤ bestDomainScore request keywords taskType
  | none => bestDomainScore request keywords taskType < 5

end DomainMatcher

/-! ## MCP server input validation (LumoraPrompterServer, second document of
src/src/meta-instruction-builder.ts) -/

/-- Model of the JS values a tool-call argument field can hold (a missing
field reads as `undefined`). -/
inductive JSValue
  | vstr (s : String)
  | vnum (n : Int)
  | vbool (b : Bool)
  | vnull
  | vundefined
  deriving DecidableEq

/-- JS truthiness. -/
def JSValue.truthy : JSValue → Bool
  | .vstr s => !s.isEmpty
  | .vnum n => n ≠ 0
  | .vbool b => b
  | .vnull => false
  | .vundefined => false

/-- `typeof v === 'string'`. -/
def JSValue.isStr : JSValue → Bool
  | .vstr _ => true
  | _ => false

/-- Arguments of the `optimize_prompt` tool call. -/
structure ToolArgs where
  user_request : JSValue := .vundefined
  context : JSValue := .vundefined
  deriving DecidableEq

inductive McpErrorCode
  | invalidParams
  | internalError
  | methodNotFound
  deriving DecidableEq

namespace LumoraPrompterServer

/-- Reads the optional `context` argument as the `string | undefined` field of
`OptimizationRequest`. -/
def contextOf : JSValue → Option String
  | .vstr s => some s
  | _ => none

/-- `LumoraPrompterServer.handleOptimizePrompt`, up to the optimizer call: the
guard `if (!args.user_request || typeof args.user_request !== 'string')` throws
`ErrorCode.InvalidParams` before the pipeline is entered; otherwise the
pipeline runs on the validated request. -/
def handleOptimizePrompt (rnd : Nat) (args : ToolArgs) :
    Except McpErrorCode OptimizationResult :=
  if !args.user_request.truthy || !args.user_request.isStr then
    .error .invalidParams
  else
    match args.user_request with
    | .vstr s =>
        .ok (PromptOptimizer.optimize rnd
          { user_request := s, context := contextOf args.context })
    | _ => .error .invalidParams

end LumoraPrompterServer

/-! ## Concrete inputs used by witnesses and counterexamples -/

/-- Scenario A input of the specification. -/
def jwtRequest : String := "Create a REST API for user authentication with JWT"

/-- A concrete analysis result with an educational task type (a task type
outside the code/creative/analytical group). -/
def eduAnalysis : AnalysisResult :=
  { taskType := .educacional
    mainObjective := "Ensinar conceito de microserviços"
    complexityLevel := .intermediario
    implicitContext := []
    targetAudience := "Estudante/Aprendiz"
    suggestedIQ := 140
    keywords := ["microserviços"] }

/-- A concrete analysis result with a code task type. -/
def codeAnalysis : AnalysisResult :=
  { taskType := .codigo
    mainObjective := "Implementar código para authentication"
    complexityLevel := .expert
    implicitContext := []
    targetAudience := "Desenvolvedor experiente"
    suggestedIQ := 160
    keywords := ["authentication"] }

/-- The eight task-type enum values. -/
def taskTypeValues : List TaskType :=
  [.criativa, .tecnica, .analitica, .educacional, .debate, .documentacao, .codigo, .mista]

/-- The four complexity-level enum values. -/
def complexityValues : List ComplexityLevel :=
  [.basico, .intermediario, .avancado, .expert]

/-! ## Helper lemmas: stable descending sort -/

theorem mem_insertDescBy {α : Type} (key : α → Nat) (x : α) (l : List α) (a : α) :
    a ∈ insertDescBy key x l ↔ a = x ∨ a ∈ l := by
  induction l with
  | nil => simp [insertDescBy]
  | cons y ys ih =>
      simp only [insertDescBy]
      by_cases h : key x < key y
      · simp only [if_pos h, List.mem_cons, ih]
        tauto
      · simp only [if_neg h, List.mem_cons]

theorem mem_sortDescBy {α : Type} (key : α → Nat) (l : List α) (a : α) :
    a ∈ sortDescBy key l ↔ a ∈ l := by
  induction l with
  | nil => simp [sortDescBy]
  | cons x xs ih =>
      simp only [sortDescBy, mem_insertDescBy, ih, List.mem_cons]

theorem insertDescBy_ne_nil {α : Type} (key : α → Nat) (x : α) (l : List α) :
    insertDescBy key x l ≠ [] := by
  cases l with
  | nil => simp [insertDescBy]
  | cons y ys =>
      simp only [insertDescBy]
      by_cases h : key x < key y
      · simp [if_pos h]
      · simp [if_neg h]

theorem sortDescBy_eq_nil_iff {α : Type} (key : α → Nat) (l : List α) :
    sortDescBy key l = [] ↔ l = [] := by
  cases l with
  | nil => simp [sortDescBy]
  | cons x xs =>
      simp only [sortDescBy]
      constructor
      · intro h
        exact absurd h (insertDescBy_ne_nil key x _)
      · intro h
        exact absurd h (List.cons_ne_nil x xs)

theorem head_insertDescBy_max {α : Type} (key : α → Nat) (x : α) (l : List α)
    (hl : ∀ b ∈ l, ∀ h t, l = h :: t → key b ≤ key h) :
    ∀ h t, insertDescBy key x l = h :: t → key x ≤ key h ∧ ∀ b ∈ l, key b ≤ key h := by
  cases l with
  | nil =>
      intro h t heq
      simp only [insertDescBy] at heq
      cases heq
      exact ⟨le_refl _, by simp⟩
  | cons y ys =>
      intro h t heq
      simp only [insertDescBy] at heq
      by_cases hx : key x < key y
      · rw [if_pos hx] at heq
        cases heq
        refine ⟨le_of_lt hx, ?_⟩
        intro b hb
        exact hl b hb y ys rfl
      · rw [if_neg hx] at heq
        cases heq
        refine ⟨le_refl _, ?_⟩
        intro b hb
        have hby : key b ≤ key y := hl b hb y ys rfl
        exact le_trans hby (le_of_not_lt hx)

theorem sortDescBy_head_max {α : Type} (key : α → Nat) (l : List α) :
    ∀ h t, sortDescBy key l = h :: t → ∀ a ∈ l, key a ≤ key h := by
  induction l with
  | nil => intro h t heq; cases heq
  | cons x xs ih =>
      intro h t heq a ha
      simp only [sortDescBy] at heq
      have hsorted : ∀ b ∈ sortDescBy key xs, ∀ h' t',
          sortDescBy key xs = h' :: t' → key b ≤ key h' := by
        intro b hb h' t' heq'
        exact ih h' t' heq' b ((mem_sortDescBy key xs b).mp hb)
      have hmax := head_insertDescBy_max key x (sortDescBy key xs) hsorted h t heq
      rcases List.mem_cons.mp ha with rfl | hxs
      · exact hmax.1
      · exact hmax.2 a ((mem_sortDescBy key xs a).mpr hxs)

/-! ## Helper lemmas: substring search and folds -/

theorem isPrefixOf_append_of_isPrefixOf (n a b : List Char)
    (h : n.isPrefixOf a = true) : n.isPrefixOf (a ++ b) = true := by
  induction n generalizing a with
  | nil => simp [List.isPrefixOf]
  | cons c cs ih =>
      cases a with
      | nil => simp [List.isPrefixOf] at h
      | cons d ds =>
          simp only [List.isPrefixOf, Bool.and_eq_true] at h
          simp only [List.cons_append, List.isPrefixOf, Bool.and_eq_true]
          exact ⟨h.1, ih ds h.2⟩

theorem containsSub_nil_needle (l : List Char) : containsSub l [] = true := by
  cases l with
  | nil => rfl
  | cons c cs => simp [containsSub, List.isPrefixOf]

theorem containsSub_append_left (a b n : List Char)
    (h : containsSub a n = true) : containsSub (a ++ b) n = true := by
  induction a with
  | nil =>
      simp only [containsSub, List.isEmpty_iff] at h
      subst h
      exact containsSub_nil_needle b
  | cons c cs ih =>
      simp only [containsSub, Bool.or_eq_true] at h ⊢
      rcases h with h | h
      · exact Or.inl (isPrefixOf_append_of_isPrefixOf n (c :: cs) b h)
      · exact Or.inr (ih h)

theorem lowerL_append (a b : List Char) : lowerL (a ++ b) = lowerL a ++ lowerL b :=
  List.map_append Char.toLower a b

theorem str_data_append (a b : String) : (a ++ b).data = a.data ++ b.data := rfl

theorem foldl_if_add_count {α : Type} (p : α → Bool) (c : Nat) (l : List α) :
    ∀ s0 : Nat, l.foldl (fun s w => if p w then s + c else s) s0
      = s0 + c * (l.filter p).length := by
  induction l with
  | nil => intro s0; simp
  | cons x xs ih =>
      intro s0
      cases h : p x with
      | true =>
          simp only [List.foldl_cons, h, if_true, ih, List.filter_cons,
            List.length_cons]
          ring
      | false =>
          simp [List.foldl_cons, h, ih, List.filter_cons]

theorem le_foldr_max (l : List Nat) (a : Nat) (h : a ∈ l) : a ≤ l.foldr max 0 := by
  induction l with
  | nil => cases h
  | cons x xs ih =>
      rcases List.mem_cons.mp h with rfl | hxs
      · exact le_max_left _ _
      · exact le_trans (ih hxs) (le_max_right _ _)

theorem foldr_max_zero_or_mem (l : List Nat) :
    l.foldr max 0 = 0 ∨ l.foldr max 0 ∈ l := by
  induction l with
  | nil => exact Or.inl rfl
  | cons x xs ih =>
      simp only [List.foldr_cons]
      rcases le_total x (xs.foldr max 0) with h | h
      · rw [max_eq_right h]
        rcases ih with h0 | hmem
        · exact Or.inl h0
        · exact Or.inr (List.mem_cons_of_mem x hmem)
      · rw [max_eq_left h]
        exact Or.inr (List.mem_cons_self x xs)

/-! ## Helper lemmas: domain matcher -/

theorem templateScoreFold_eq_spec (request : String) (keywords : List String)
    (taskType : TaskType) (template : DomainTemplate) :
    DomainMatcher.templateScoreFold (lowerL request.data) keywords taskType template
      = DomainMatcher.domainScoreSpec request keywords taskType template := by
  simp only [DomainMatcher.templateScoreFold, DomainMatcher.domainScoreSpec]
  rw [foldl_if_add_count, foldl_if_add_count]

theorem mem_positiveScores (request : String) (keywords : List String)
    (taskType : TaskType) (p : DomainTemplate × Nat) :
    p ∈ DomainMatcher.positiveScores (lowerL request.data) keywords taskType
      ↔ p.1 ∈ DOMAIN_TEMPLATES
        ∧ p.2 = DomainMatcher.domainScoreSpec request keywords taskType p.1
        ∧ 0 < p.2 := by
  simp only [DomainMatcher.positiveScores, List.mem_filterMap]
  constructor
  · rintro ⟨t, ht, heq⟩
    rw [templateScoreFold_eq_spec] at heq
    by_cases hpos : 0 < DomainMatcher.domainScoreSpec request keywords taskType t
    · rw [if_pos hpos] at heq
      cases heq
      exact ⟨ht, rfl, hpos⟩
    · rw [if_neg hpos] at heq
      cases heq
  · rintro ⟨ht, hval, hpos⟩
    refine ⟨p.1, ht, ?_⟩
    rw [templateScoreFold_eq_spec, ← hval, if_pos hpos]

theorem spec_le_bestDomainScore (request : String) (keywords : List String)
    (taskType : TaskType) (template : DomainTemplate)
    (ht : template ∈ DOMAIN_TEMPLATES) :
    DomainMatcher.domainScoreSpec request keywords taskType template
      ≤ DomainMatcher.bestDomainScore request keywords taskType :=
  le_foldr_max _ _ (List.mem_map_of_mem _ ht)

theorem bestDomainScore_zero_or_attained (request : String) (keywords : List String)
    (taskType : TaskType) :
    DomainMatcher.bestDomainScore request keywords taskType = 0
      ∨ ∃ t ∈ DOMAIN_TEMPLATES,
          DomainMatcher.domainScoreSpec request keywords taskType t
            = DomainMatcher.bestDomainScore request keywords taskType := by
  rcases foldr_max_zero_or_mem
      (DOMAIN_TEMPLATES.map (DomainMatcher.domainScoreSpec request keywords taskType))
    with h0 | hmem
  · exact Or.inl h0
  · obtain ⟨t, ht, hspec⟩ := List.mem_map.mp hmem
    exact Or.inr ⟨t, ht, hspec⟩

/-! ## Helper lemmas: builder invariants -/

theorem buildEngineeringDirectives_length (a : AnalysisResult)
    (t : List TechniqueApplication) :
    (MetaInstructionBuilder.buildEngineeringDirectives a t).length
      = (MetaInstructionBuilder.middleDirectivePairs a t).length + 3 := by
  simp only [MetaInstructionBuilder.buildEngineeringDirectives, List.length_append,
    List.length_map, List.enum_length, List.length_cons, List.length_nil]
  omega

theorem thinkingProtocol_length (a : AnalysisResult) :
    (MetaInstructionBuilder.buildThinkingProtocol a).length
      = if a.taskType = .codigo ∨ a.taskType = .criativa ∨ a.taskType = .analitica
        then 7 else 5 := by
  obtain ⟨tt, mo, cl, ic, ta, iq, kw, dd, ia⟩ := a
  cases tt <;> simp [MetaInstructionBuilder.buildThinkingProtocol]

theorem generationDirective_contains_generate (a : AnalysisResult) :
    containsSub (lowerL (MetaInstructionBuilder.buildGenerationDirective a).data)
      "generate".data = true := by
  have base : containsSub
      (lowerL ("Based on these meta-instructions, generate an optimized prompt that incorporates all the directives above. The prompt should guide the AI to produce ").data)
      "generate".data = true := by decide
  simp only [MetaInstructionBuilder.buildGenerationDirective]
  rw [str_data_append, lowerL_append]
  apply containsSub_append_left
  rw [str_data_append, lowerL_append]
  apply containsSub_append_left
  rw [str_data_append, lowerL_append]
  apply containsSub_append_left
  rw [str_data_append, lowerL_append]
  apply containsSub_append_left
  exact base

theorem getContextRequirements_length_pos (a : AnalysisResult) :
    0 < (MetaInstructionBuilder.getContextRequirements a).length := by
  simp [MetaInstructionBuilder.getContextRequirements]

theorem role_iq_mem_selectTechniques (rnd : Nat) (a : AnalysisResult) :
    PromptingTechnique.role_prompting
        ∈ (TechniqueSelector.selectTechniques rnd a).map (fun t => t.technique)
      ∧ PromptingTechnique.iq_attribution
        ∈ (TechniqueSelector.selectTechniques rnd a).map (fun t => t.technique) := by
  constructor <;>
    simp [TechniqueSelector.selectTechniques, TechniqueSelector.applyMandatoryTechniques]

/-! ## Claim theorems -/

/-- Claim C1: the Technique Selector is claimed (by the spec, by its own doc
comment "Returns 3-4 techniques maximum (Golden Rule)", and by the
orchestrator's validator "Muitas técnicas aplicadas (máximo 4)") to return at
most 4 techniques; evaluating the code on the analysis of the Scenario A
request yields 5 techniques (3 mandatory including emotion prompting plus 2
situational ones). -/
theorem selectTechniques_jwt_five :
    ((TechniqueSelector.selectTechniques 0 (RequestAnalyzer.analyze jwtRequest none)).map
        (fun t => t.technique)
      = [.role_prompting, .iq_attribution, .emotion_prompting, .bet_100_dollars, .rar])
    ∧ (TechniqueSelector.selectTechniques 0 (RequestAnalyzer.analyze jwtRequest none)).length
      = 5 := by
  decide

/-- Claim C2 (counterexample): on "Create a REST API for user authentication
with JWT" the classifier does not return complexity `expert` (the word "api"
matches an intermediate indicator and the 9-word request misses the
30-word expert length trigger, so the second tier fires). -/
theorem analyze_jwt_not_expert :
    (RequestAnalyzer.analyze jwtRequest none).complexityLevel ≠ ComplexityLevel.expert := by
  decide

/-- Claim C2 (amended): on the Scenario A request the classifier returns
taskType `codigo` and complexity `avancado` (advanced, not expert); the
selected techniques always include the mandatory role-prompting and
IQ-attribution techniques; and the generation directive contains the word
"generate". -/
theorem scenarioA_amended (rnd : Nat) :
    (RequestAnalyzer.analyze jwtRequest none).taskType = TaskType.codigo
    ∧ (RequestAnalyzer.analyze jwtRequest none).complexityLevel = ComplexityLevel.avancado
    ∧ PromptingTechnique.role_prompting
        ∈ (TechniqueSelector.selectTechniques rnd (RequestAnalyzer.analyze jwtRequest none)).map
            (fun t => t.technique)
    ∧ PromptingTechnique.iq_attribution
        ∈ (TechniqueSelector.selectTechniques rnd (RequestAnalyzer.analyze jwtRequest none)).map
            (fun t => t.technique)
    ∧ containsSub
        (MetaInstructionBuilder.buildGenerationDirective
          (RequestAnalyzer.analyze jwtRequest none)).data "generate".data = true :=
  ⟨by decide, by decide,
   (role_iq_mem_selectTechniques rnd (RequestAnalyzer.analyze jwtRequest none)).1,
   (role_iq_mem_selectTechniques rnd (RequestAnalyzer.analyze jwtRequest none)).2,
   by decide⟩

/-- Claim C3 (counterexample): on the request "melhorar" no expert indicator
occurs, the expert length trigger does not fire, and an intermediate indicator
occurs, yet the classifier returns `avancado`, not `intermediario`. -/
theorem assessComplexity_melhorar_not_intermediate :
    (RequestAnalyzer.expertScoreOf "melhorar" = 0
      ∧ ¬(30 < RequestAnalyzer.wordCountOf "melhorar"
            ∧ RequestAnalyzer.hasCodeTermsOf "melhorar" = true)
      ∧ 0 < RequestAnalyzer.intermediateScoreOf "melhorar")
    ∧ RequestAnalyzer.assessComplexity "melhorar" ≠ ComplexityLevel.intermediario := by
  decide

/-- Claim C3 (amended): when no expert indicator occurs and the expert length
trigger does not fire, an intermediate indicator or a word count above 20 makes
the classifier return `avancado` (advanced), not `intermediario`. -/
theorem assessComplexity_second_tier_avancado (request : String)
    (hexp : RequestAnalyzer.expertScoreOf request = 0)
    (hlen : ¬(30 < RequestAnalyzer.wordCountOf request
        ∧ RequestAnalyzer.hasCodeTermsOf request = true))
    (hmid : 0 < RequestAnalyzer.intermediateScoreOf request
        ∨ 20 < RequestAnalyzer.wordCountOf request) :
    RequestAnalyzer.assessComplexity request = ComplexityLevel.avancado := by
  unfold RequestAnalyzer.assessComplexity
  rw [if_neg, if_pos hmid]
  rintro (h | h)
  · omega
  · exact hlen h

/-- Witness for `assessComplexity_second_tier_avancado` at the request
"melhorar". -/
theorem assessComplexity_second_tier_witness :
    RequestAnalyzer.expertScoreOf "melhorar" = 0
    ∧ RequestAnalyzer.assessComplexity "melhorar" = ComplexityLevel.avancado :=
  ⟨by decide,
   assessComplexity_second_tier_avancado "melhorar" (by decide) (by decide)
     (Or.inl (by decide))⟩

/-- Claim C4 (counterexample): the orchestrated result for the Scenario A
request carries no quality score: `PromptOptimizer.optimize` never invokes the
Quality Evaluator and leaves the optional `qualityScore` field unset. -/
theorem optimize_jwt_no_qualityScore :
    (PromptOptimizer.optimize 0 { user_request := jwtRequest }).qualityScore = none := rfl

/-- Claim C4 (amended): for every input the orchestrator returns the analysis
facts, the framework built by the Instruction Assembler, and the technique
justification, but never a quality score (and no few-shot examples): the
Quality Evaluator is not part of the `optimize` pipeline. -/
theorem optimize_pipeline_no_quality_evaluator (rnd : Nat)
    (request : OptimizationRequest) :
    (PromptOptimizer.optimize rnd request).qualityScore = none
    ∧ (PromptOptimizer.optimize rnd request).fewShotExamples = none
    ∧ (PromptOptimizer.optimize rnd request).metaInstructions
        = MetaInstructionBuilder.buildMetaInstructions request.user_request
            (RequestAnalyzer.analyze request.user_request request.context)
            (TechniqueSelector.selectTechniques rnd
              (RequestAnalyzer.analyze request.user_request request.context))
    ∧ (PromptOptimizer.optimize rnd request).technicalJustification
        = PromptFormatter.buildJustification
            (TechniqueSelector.selectTechniques rnd
              (RequestAnalyzer.analyze request.user_request request.context))
            (RequestAnalyzer.analyze request.user_request request.context)
    ∧ (PromptOptimizer.optimize rnd request).analysis.taskType
        = (RequestAnalyzer.analyze request.user_request request.context).taskType :=
  ⟨rfl, rfl, rfl, rfl, rfl⟩

/-- Claim C5 (counterexample): for an educational task the thinking protocol is
just the fixed 3-step opening followed by the fixed 2-step closing: no
task-type-specific pair of steps is inserted, so the protocol has 5 steps, not
the 7 a universal middle pair would give. -/
theorem thinkingProtocol_educacional_five_steps :
    MetaInstructionBuilder.buildThinkingProtocol eduAnalysis
      = ["Step 1: Read and analyze the original request carefully",
         "Step 2: Identify the core problem and implicit requirements",
         "Step 3: Consider the domain expertise needed",
         "Step 6: Structure the prompt with clear sections and requirements",
         "Step 7: Validate that all meta-instructions are incorporated"]
    ∧ (MetaInstructionBuilder.buildThinkingProtocol eduAnalysis).length ≠ 7 := by
  decide

/-- Claim C5 (amended): the thinking protocol is a fixed 3-step opening, a
task-type-specific pair of steps inserted only for code/creative/analytical
tasks (and nothing for the other task types), and a fixed 2-step closing, so
its length is 7 for those three task types and 5 otherwise, always within
[5, 7]. -/
theorem thinkingProtocol_structure (a : AnalysisResult) :
    ((a.taskType = .codigo ∨ a.taskType = .criativa ∨ a.taskType = .analitica) →
        (MetaInstructionBuilder.buildThinkingProtocol a).length = 7)
    ∧ (¬(a.taskType = .codigo ∨ a.taskType = .criativa ∨ a.taskType = .analitica) →
        (MetaInstructionBuilder.buildThinkingProtocol a).length = 5)
    ∧ 5 ≤ (MetaInstructionBuilder.buildThinkingProtocol a).length
    ∧ (MetaInstructionBuilder.buildThinkingProtocol a).length ≤ 7 := by
  have h := thinkingProtocol_length a
  by_cases hc : a.taskType = .codigo ∨ a.taskType = .criativa ∨ a.taskType = .analitica
  · rw [if_pos hc] at h
    exact ⟨fun _ => h, fun hn => absurd hc hn, by omega, by omega⟩
  · rw [if_neg hc] at h
    exact ⟨fun hcc => absurd hcc hc, fun _ => h, by omega, by omega⟩

/-- Witness for `thinkingProtocol_structure` at a concrete code-task
analysis. -/
theorem thinkingProtocol_structure_witness :
    (MetaInstructionBuilder.buildThinkingProtocol codeAnalysis).length = 7 :=
  (thinkingProtocol_structure codeAnalysis).1 (Or.inl rfl)

/-- Claim C6: the overall quality score returned by the Quality Evaluator is
exactly the weighted sum clarity*0.25 + completeness*0.25 + specificity*0.20 +
techniqueBalance*0.15 + actionability*0.15 over the returned breakdown, rounded
to the nearest integer (weights as exact rationals), so recomputing the sum
from the returned breakdown reproduces `overall`. -/
theorem overall_eq_weighted_breakdown (m : MetaInstructionFramework)
    (a : AnalysisResult) (t : List TechniqueApplication) :
    (QualityEvaluator.evaluateQuality m a t).overall
      = QualityEvaluator.jsRound
          (((QualityEvaluator.evaluateQuality m a t).breakdown.clarity : ℚ) * (1/4)
            + ((QualityEvaluator.evaluateQuality m a t).breakdown.completeness : ℚ) * (1/4)
            + ((QualityEvaluator.evaluateQuality m a t).breakdown.specificity : ℚ) * (1/5)
            + ((QualityEvaluator.evaluateQuality m a t).breakdown.techniqueBalance : ℚ) * (3/20)
            + ((QualityEvaluator.evaluateQuality m a t).breakdown.actionability : ℚ) * (3/20)) :=
  rfl

/-- Claim C8: the classifier is total (its task type and complexity always lie
in the closed enums), defaults to `tecnica` when no task-type keyword list
matches, and defaults to `intermediario` when no complexity threshold is
met. -/
theorem analyze_total_defaults (request : String) (context : Option String) :
    ((RequestAnalyzer.analyze request context).taskType ∈ taskTypeValues
      ∧ (RequestAnalyzer.analyze request context).complexityLevel ∈ complexityValues)
    ∧ (RequestAnalyzer.taskTypeScores request = [] →
        (RequestAnalyzer.analyze request context).taskType = TaskType.tecnica)
    ∧ (RequestAnalyzer.expertScoreOf request = 0
        ∧ ¬(30 < RequestAnalyzer.wordCountOf request
              ∧ RequestAnalyzer.hasCodeTermsOf request = true)
        ∧ RequestAnalyzer.intermediateScoreOf request = 0
        ∧ RequestAnalyzer.wordCountOf request ≤ 20
        ∧ RequestAnalyzer.basicScoreOf request = 0 →
        (RequestAnalyzer.analyze request context).complexityLevel
          = ComplexityLevel.intermediario) := by
  refine ⟨⟨?_, ?_⟩, ?_, ?_⟩
  · cases (RequestAnalyzer.analyze request context).taskType <;> simp [taskTypeValues]
  · cases (RequestAnalyzer.analyze request context).complexityLevel <;> simp [complexityValues]
  · intro h
    show RequestAnalyzer.identifyTaskType request = TaskType.tecnica
    simp [RequestAnalyzer.identifyTaskType, h, sortDescBy]
  · rintro ⟨h1, h2, h3, h4, h5⟩
    show RequestAnalyzer.assessComplexity request = ComplexityLevel.intermediario
    unfold RequestAnalyzer.assessComplexity
    rw [if_neg, if_neg, if_neg]
    · omega
    · rintro (h | h) <;> omega
    · rintro (h | h)
      · omega
      · exact h2 h

/-- Witness for `analyze_total_defaults` at the request "ola", which matches no
keyword list and no complexity threshold. -/
theorem analyze_total_defaults_witness :
    RequestAnalyzer.taskTypeScores "ola" = []
    ∧ (RequestAnalyzer.analyze "ola" none).taskType = TaskType.tecnica
    ∧ (RequestAnalyzer.analyze "ola" none).complexityLevel
        = ComplexityLevel.intermediario :=
  ⟨by decide, (analyze_total_defaults "ola" none).2.1 (by decide),
   (analyze_total_defaults "ola" none).2.2 (by decide)⟩

/-- Claim C9: a missing, non-string, or empty `user_request` argument makes the
`optimize_prompt` handler fail with the invalid-params error before the
pipeline runs; the error result carries no analysis facts and no framework. -/
theorem handleOptimizePrompt_invalid_input (rnd : Nat) (args : ToolArgs)
    (h : args.user_request = JSValue.vundefined
      ∨ args.user_request.isStr = false
      ∨ args.user_request = JSValue.vstr "") :
    LumoraPrompterServer.handleOptimizePrompt rnd args
      = Except.error McpErrorCode.invalidParams := by
  rcases h with h | h | h
  · simp [LumoraPrompterServer.handleOptimizePrompt, h, JSValue.truthy, JSValue.isStr]
  · cases hu : args.user_request <;>
      simp_all [LumoraPrompterServer.handleOptimizePrompt, JSValue.truthy, JSValue.isStr]
  · simp [LumoraPrompterServer.handleOptimizePrompt, h, JSValue.truthy, JSValue.isStr,
      String.isEmpty]

/-- Witness for `handleOptimizePrompt_invalid_input` at an empty request
string. -/
theorem handleOptimizePrompt_invalid_input_witness :
    (({ user_request := JSValue.vstr "" } : ToolArgs).user_request = JSValue.vstr "")
    ∧ LumoraPrompterServer.handleOptimizePrompt 0 { user_request := JSValue.vstr "" }
        = Except.error McpErrorCode.invalidParams :=
  ⟨rfl, handleOptimizePrompt_invalid_input 0 _ (Or.inr (Or.inr rfl))⟩

/-- Claim C10: every framework produced by the builder passes its own
validator: the directives list is never empty, the generation directive always
contains "generate", the thinking protocol always has at least 3 steps, and the
context requirements are never empty, so the validator returns `isValid = true`
with no issues. -/
theorem built_framework_always_valid (originalRequest : String)
    (a : AnalysisResult) (t : List TechniqueApplication) :
    MetaInstructionBuilder.validateMetaInstructions
        (MetaInstructionBuilder.buildMetaInstructions originalRequest a t)
      = { isValid := true, issues := [] } := by
  have h1 : ¬((MetaInstructionBuilder.buildEngineeringDirectives a t).length = 0) := by
    rw [buildEngineeringDirectives_length]
    omega
  have h2 := generationDirective_contains_generate a
  have h3 : ¬((MetaInstructionBuilder.buildThinkingProtocol a).length < 3) := by
    have h := thinkingProtocol_length a
    by_cases hc : a.taskType = .codigo ∨ a.taskType = .criativa ∨ a.taskType = .analitica
    · rw [if_pos hc] at h
      omega
    · rw [if_neg hc] at h
      omega
  have h4 : ¬((MetaInstructionBuilder.getContextRequirements a).length = 0) := by
    have := getContextRequirements_length_pos a
    omega
  simp [MetaInstructionBuilder.validateMetaInstructions,
    MetaInstructionBuilder.buildMetaInstructions,
    MetaInstructionBuilder.buildStructuralRequirements, h1, h2, h3, h4]

/-- Claim C7: the Domain Matcher scores each template +5 on task-type match,
+3 per domain-name word contained in the lowercased request and +2 per user
keyword contained in the lowercased domain name, and returns a template exactly
when that template's score is the maximum over the catalog and this maximum is
at least 5; otherwise it returns none. -/
theorem matchDomain_max_and_threshold (request : String) (keywords : List String)
    (taskType : TaskType) :
    DomainMatcher.matchDomainSpec request keywords taskType := by
  rcases hs : sortDescBy (fun p : DomainTemplate × Nat => p.2)
      (DomainMatcher.positiveScores (lowerL request.data) keywords taskType)
    with _ | ⟨top, rest⟩
  · have hempty : DomainMatcher.positiveScores (lowerL request.data) keywords taskType
        = [] := (sortDescBy_eq_nil_iff _ _).mp hs
    have hbest : DomainMatcher.bestDomainScore request keywords taskType < 5 := by
      by_contra hge
      push_neg at hge
      rcases bestDomainScore_zero_or_attained request keywords taskType with h0 | ⟨t, ht, hspec⟩
      · omega
      · have hpos : 0 < DomainMatcher.domainScoreSpec request keywords taskType t := by
          omega
        have hmem : (t, DomainMatcher.domainScoreSpec request keywords taskType t)
            ∈ DomainMatcher.positiveScores (lowerL request.data) keywords taskType :=
          (mem_positiveScores request keywords taskType _).mpr ⟨ht, rfl, hpos⟩
        rw [hempty] at hmem
        cases hmem
    have hmd : DomainMatcher.matchDomain request keywords taskType = none := by
      simp only [DomainMatcher.matchDomain, hs]
    unfold DomainMatcher.matchDomainSpec
    rw [hmd]
    exact hbest
  · have htop_mem : top ∈ DomainMatcher.positiveScores (lowerL request.data) keywords
        taskType := by
      refine (mem_sortDescBy (fun p : DomainTemplate × Nat => p.2)
        (DomainMatcher.positiveScores (lowerL request.data) keywords taskType) top).mp ?_
      rw [hs]
      exact List.mem_cons_self top rest
    obtain ⟨htT, htScore, htPos⟩ :=
      (mem_positiveScores request keywords taskType top).mp htop_mem
    have hmax_all : ∀ p ∈ DomainMatcher.positiveScores (lowerL request.data) keywords
        taskType, p.2 ≤ top.2 :=
      fun p hp => sortDescBy_head_max (fun p : DomainTemplate × Nat => p.2) _ top rest hs p hp
    have hle : top.2 ≤ DomainMatcher.bestDomainScore request keywords taskType := by
      rw [htScore]
      exact spec_le_bestDomainScore request keywords taskType top.1 htT
    have hge : DomainMatcher.bestDomainScore request keywords taskType ≤ top.2 := by
      rcases bestDomainScore_zero_or_attained request keywords taskType with h0 | ⟨t0, ht0, hsp0⟩
      · omega
      · by_cases hpos0 : 0 < DomainMatcher.domainScoreSpec request keywords taskType t0
        · have hmem0 : (t0, DomainMatcher.domainScoreSpec request keywords taskType t0)
              ∈ DomainMatcher.positiveScores (lowerL request.data) keywords taskType :=
            (mem_positiveScores request keywords taskType _).mpr ⟨ht0, rfl, hpos0⟩
          have := hmax_all _ hmem0
          simp only at this
          omega
        · omega
    by_cases h5 : 5 ≤ top.2
    · have hmd : DomainMatcher.matchDomain request keywords taskType = some top.1 := by
        simp only [DomainMatcher.matchDomain, hs]
        rw [if_pos h5]
      unfold DomainMatcher.matchDomainSpec
      rw [hmd]
      exact ⟨htT, by omega, by omega⟩
    · have hmd : DomainMatcher.matchDomain request keywords taskType = none := by
        simp only [DomainMatcher.matchDomain, hs]
        rw [if_neg h5]
      unfold DomainMatcher.matchDomainSpec
      rw [hmd]
      show DomainMatcher.bestDomainScore request keywords taskType < 5
      omega

/-- Witness for `matchDomain_max_and_threshold` at the request
"machine learning" with no keywords and a code task type. -/
theorem matchDomain_max_witness :
    DomainMatcher.matchDomainSpec "machine learning" [] TaskType.codigo :=
  matchDomain_max_and_threshold "machine learning" [] TaskType.codigo

/-- Witness for `scenarioA_amended` at a fixed random draw. -/
theorem scenarioA_witness :
    (RequestAnalyzer.analyze jwtRequest none).taskType = TaskType.codigo
    ∧ (RequestAnalyzer.analyze jwtRequest none).complexityLevel
        = ComplexityLevel.avancado :=
  ⟨(scenarioA_amended 0).1, (scenarioA_amended 0).2.1⟩

/-- Witness for `optimize_pipeline_no_quality_evaluator` at a concrete
request. -/
theorem optimize_no_quality_witness :
    (PromptOptimizer.optimize 0 { user_request := "ola" }).qualityScore = none
    ∧ (PromptOptimizer.optimize 0 { user_request := "ola" }).fewShotExamples = none :=
  ⟨(optimize_pipeline_no_quality_evaluator 0 { user_request := "ola" }).1,
   (optimize_pipeline_no_quality_evaluator 0 { user_request := "ola" }).2.1⟩

/-- Witness for `overall_eq_weighted_breakdown` at a concrete framework. -/
theorem overall_weighted_witness :
    (QualityEvaluator.evaluateQuality
        (MetaInstructionBuilder.buildMetaInstructions "ola" eduAnalysis [])
        eduAnalysis []).overall
      = QualityEvaluator.jsRound
          (((QualityEvaluator.evaluateQuality
              (MetaInstructionBuilder.buildMetaInstructions "ola" eduAnalysis [])
              eduAnalysis []).breakdown.clarity : ℚ) * (1/4)
            + ((QualityEvaluator.evaluateQuality
                (MetaInstructionBuilder.buildMetaInstructions "ola" eduAnalysis [])
                eduAnalysis []).breakdown.completeness : ℚ) * (1/4)
            + ((QualityEvaluator.evaluateQuality
                (MetaInstructionBuilder.buildMetaInstructions "ola" eduAnalysis [])
                eduAnalysis []).breakdown.specificity : ℚ) * (1/5)
            + ((QualityEvaluator.evaluateQuality
                (MetaInstructionBuilder.buildMetaInstructions "ola" eduAnalysis [])
                eduAnalysis []).breakdown.techniqueBalance : ℚ) * (3/20)
            + ((QualityEvaluator.evaluateQuality
                (MetaInstructionBuilder.buildMetaInstructions "ola" eduAnalysis [])
                eduAnalysis []).breakdown.actionability : ℚ) * (3/20)) :=
  overall_eq_weighted_breakdown
    (MetaInstructionBuilder.buildMetaInstructions "ola" eduAnalysis []) eduAnalysis []

/-- Witness for `built_framework_always_valid` at a concrete analysis. -/
theorem built_framework_valid_witness :
    MetaInstructionBuilder.validateMetaInstructions
        (MetaInstructionBuilder.buildMetaInstructions "ola" eduAnalysis [])
      = { isValid := true, issues := [] } :=
  built_framework_always_valid "ola" eduAnalysis []
